import Mathlib

/-!
The OneLogin handshake (`onelogin.Get`) and the configuration getters of clisso.

A shallow embedding of `src/onelogin/main.go` and `src/config/config.go`.

`onelogin.Get` is a straight-line Go function that talks to its surroundings:
the in-memory configuration (`viper`), the terminal, three OneLogin HTTP
endpoints and the AWS security-token service.  The surroundings are gathered in
a `World`; running `Get` in a world yields a `Run`: the list of effects it
performed, in order, each with the answer it received, and the way the call
ended (a Go return of `(*Credentials, error)`, or a runtime panic).
-/

namespace Clisso

/-! ## Values -/

/-- A Go `error` value, identified by its message. -/
structure Error where
  msg : String
  deriving DecidableEq, Repr

/-- The result pair `(v, err)` of a fallible Go call: `err == nil` with a value,
or `err != nil`. -/
inductive Result (α : Type) where
  | ok (v : α)
  | err (e : Error)
  deriving DecidableEq, Repr

/-- Go `errors.New(text)` and `fmt.Errorf(text)` once the text is formatted. -/
def errorsNew (text : String) : Error := ⟨text⟩

/-- A `time.Time` instant (the expiration of the credentials), as an integer
time stamp. -/
structure Time where
  stamp : Int
  deriving DecidableEq, Repr

/-- Modelled from the spec: the declaration of `GenerateSamlAssertionParams` is
not among the sources; the fields are the four that `Get` fills (lines 71-78). -/
structure GenerateSamlAssertionParams where
  UsernameOrEmail : String
  Password : String
  AppId : String
  Subdomain : String
  deriving DecidableEq, Repr

/-- Modelled from the spec: an `MfaDevice` {device_id, device_type label}; the
declaration is not among the sources.  `Get` prints `DeviceId` with `%d`
(line 94), so it is an integer. -/
structure Device where
  DeviceId : Int
  DeviceType : String
  deriving DecidableEq, Repr

/-- Modelled from the spec: one element of `rSaml.Data`, the challenge
{state_token, devices}; the declaration is not among the sources, the fields are
the two that `Get` reads (lines 87 and 89). -/
structure SamlData where
  StateToken : String
  Devices : List Device
  deriving DecidableEq, Repr

/-- Modelled from the spec: the response of `GenerateSamlAssertion`; the
declaration is not among the sources.  `Get` reads `rSaml.Data[0]`. -/
structure GenerateSamlAssertionResponse where
  Data : List SamlData
  deriving DecidableEq, Repr

/-- Modelled from the spec: the declaration of `VerifyFactorParams` is not among
the sources; the fields are the four that `Get` fills (lines 111-116). -/
structure VerifyFactorParams where
  AppId : String
  DeviceId : String
  StateToken : String
  OtpToken : String
  deriving DecidableEq, Repr

/-- Modelled from the spec: the response of `VerifyFactor`, whose `Data` is the
raw SAML assertion payload (line 123); the declaration is not among the
sources. -/
structure VerifyFactorResponse where
  Data : String
  deriving DecidableEq, Repr

/-- The `sts.AssumeRoleWithSAMLInput` built on lines 126-130; `aws.String`
makes each of the three pointers non-nil. -/
structure AssumeRoleWithSAMLInput where
  PrincipalArn : String
  RoleArn : String
  SAMLAssertion : String
  deriving DecidableEq, Repr

/-- The `sts.Credentials` of the AWS SDK: four pointer fields, each possibly
nil. -/
structure StsCredentials where
  AccessKeyId : Option String
  SecretAccessKey : Option String
  SessionToken : Option String
  Expiration : Option Time
  deriving DecidableEq, Repr

/-- The `sts.AssumeRoleWithSAMLOutput` as far as `Get` reads it: the pointer
`resp.Credentials`, possibly nil. -/
structure AssumeRoleWithSAMLOutput where
  Credentials : Option StsCredentials
  deriving DecidableEq, Repr

/-- Modelled from the spec: `awsprovider.Credentials`, the TemporaryCredentials
{access_key_id, secret_access_key, session_token, expiration}; the declaration
is not among the sources, the fields are the four set on lines 153-158. -/
structure Credentials where
  AccessKeyId : String
  SecretAccessKey : String
  SessionToken : String
  Expiration : Time
  deriving DecidableEq, Repr

/-! ## Effects, outcomes and runs -/

/-- One constructor per effectful statement of `Get`, with the arguments passed
and the answer received. -/
inductive Effect where
  /-- The `log.Println("Generating OneLogin access tokens")` of line 51. -/
  | logGeneratingTokens
  /-- The `GenerateTokens(GenerateTokensUrl, id, secret)` of line 52. -/
  | GenerateTokens (url id secret : String) (res : Result String)
  /-- The `fmt.Print("OneLogin username: ")` of line 59. -/
  | promptUsername
  /-- The `fmt.Scanln(&user)` of line 60, with the value left in `user`. -/
  | scanlnUser (user : String)
  /-- The `fmt.Print("OneLogin password: ")` of line 63. -/
  | promptPassword
  /-- The `gopass.GetPasswd()` of line 64. -/
  | GetPasswd (res : Result String)
  /-- The `log.Println("Generating SAML assertion")` of line 70. -/
  | logGeneratingSaml
  /-- The `GenerateSamlAssertion(GenerateSamlAssertionUrl, token, &pSaml)` of
  line 80. -/
  | GenerateSamlAssertion (url token : String) (p : GenerateSamlAssertionParams)
      (res : Result GenerateSamlAssertionResponse)
  /-- The `fmt.Printf("%d. %d - %s\n", i+1, d.DeviceId, d.DeviceType)` of line
  94; `number` is the `i+1` shown. -/
  | printfDevice (number : Nat) (deviceId : Int) (deviceType : String)
  /-- The `fmt.Printf("Please choose an MFA device ... (1-%d): ", len(devices))`
  of line 97. -/
  | promptSelection (count : Nat)
  /-- The `fmt.Scanln(&selection)` of line 99, with the value left in
  `selection`. -/
  | scanlnSelection (selection : Int)
  /-- The `fmt.Print("Please enter the OTP from your MFA device: ")` of line
  106. -/
  | promptOtp
  /-- The `fmt.Scanln(&otp)` of line 108, with the value left in `otp`. -/
  | scanlnOtp (otp : String)
  /-- The `VerifyFactor(VerifyFactorUrl, token, &pMfa)` of line 118. -/
  | VerifyFactor (url token : String) (p : VerifyFactorParams)
      (res : Result VerifyFactorResponse)
  /-- The `session.NewSession()` of line 132. -/
  | NewSession (res : Result Unit)
  /-- The `svc.AssumeRoleWithSAML(&pAssumeRole)` of line 135. -/
  | AssumeRoleWithSAML (inp : AssumeRoleWithSAMLInput)
      (res : Result AssumeRoleWithSAMLOutput)
  deriving DecidableEq, Repr

/-- The text an effect writes to the terminal or to the log, if any. -/
def Effect.output : Effect → Option String
  | .logGeneratingTokens => some "Generating OneLogin access tokens\n"
  | .promptUsername => some "OneLogin username: "
  | .promptPassword => some "OneLogin password: "
  | .logGeneratingSaml => some "Generating SAML assertion\n"
  | .printfDevice number deviceId deviceType =>
      some (toString number ++ ". " ++ toString deviceId ++ " - " ++ deviceType ++ "\n")
  | .promptSelection count =>
      some ("Please choose an MFA device to authenticate with (1-" ++ toString count ++ "): ")
  | .promptOtp => some "Please enter the OTP from your MFA device: "
  | _ => none

/-- A Go runtime panic, by cause. -/
inductive Panic where
  /-- An `xs[i]` with `i` outside `0 .. len(xs)-1`. -/
  | indexOutOfRange (index : Int) (length : Nat)
  /-- A `*p` with `p == nil`. -/
  | nilPointerDereference
  /-- The panic of `session.Must` on a failed `session.NewSession()`. -/
  | sessionMust (e : Error)
  deriving DecidableEq, Repr

/-- How a call of `Get` ends: it returns the pair `(creds, err)`, each possibly
nil, or it panics. -/
inductive Outcome where
  | returned (creds : Option Credentials) (err : Option Error)
  | panicked (p : Panic)
  deriving DecidableEq, Repr

/-- A run of `Get`: the effects performed, oldest first, and the outcome. -/
structure Run where
  trace : List Effect
  outcome : Outcome
  deriving DecidableEq, Repr

/-- Everything `Get` and the configuration getters depend on.  The constants
and functions of the `onelogin` package that are declared outside the sources
(`GenerateTokensUrl`, `GenerateTokens`, ...) and the calls into libraries are
parameters; each answers as a function of the arguments it is given. -/
structure World where
  /-- The `viper.GetString(key)` lookup: the empty string for an absent key. -/
  viper : String → String
  GenerateTokensUrl : String
  GenerateSamlAssertionUrl : String
  VerifyFactorUrl : String
  GenerateTokens : String → String → String → Result String
  /-- What `fmt.Scanln(&user)` leaves in `user`. -/
  ScanlnUser : String
  GetPasswd : Result String
  GenerateSamlAssertion :
    String → String → GenerateSamlAssertionParams → Result GenerateSamlAssertionResponse
  /-- What `fmt.Scanln(&selection)` leaves in `selection`: the number typed,
  or `0` when the input does not parse. -/
  ScanlnSelection : Int
  /-- What `fmt.Scanln(&otp)` leaves in `otp`. -/
  ScanlnOtp : String
  VerifyFactor : String → String → VerifyFactorParams → Result VerifyFactorResponse
  NewSession : Result Unit
  AssumeRoleWithSAML : AssumeRoleWithSAMLInput → Result AssumeRoleWithSAMLOutput

/-! ## `config.GetProvider` and `config.GetApp` -/

/-- The `ProviderConfig` struct of `config.go`. -/
structure ProviderConfig where
  ClientID : String
  ClientSecret : String
  Subdomain : String
  /-- The field `Type` of the Go struct (a Lean keyword); `GetProvider` leaves
  it at its zero value. -/
  Type_ : String
  Username : String
  deriving DecidableEq, Repr

/-- The `AppConfig` struct of `config.go`. -/
structure AppConfig where
  ID : String
  PrincipalARN : String
  Provider : String
  RoleARN : String
  deriving DecidableEq, Repr

/-- The function `GetProvider` of `config.go`. -/
def GetProvider (viper : String → String) (p : String) : Result ProviderConfig :=
  let clientSecret := viper ("providers." ++ p ++ ".clientSecret")
  let clientID := viper ("providers." ++ p ++ ".clientID")
  let subdomain := viper ("providers." ++ p ++ ".subdomain")
  let user := viper ("providers." ++ p ++ ".username")
  if clientSecret = "" then
    .err (errorsNew "authClientSecret config value must bet set")
  else if clientID = "" then
    .err (errorsNew "authClientID config value must bet set")
  else if subdomain = "" then
    .err (errorsNew "subdomain config value must bet set")
  else
    .ok { ClientID := clientID, ClientSecret := clientSecret, Subdomain := subdomain,
          Type_ := "", Username := user }

/-- The function `GetApp` of `config.go`. -/
def GetApp (viper : String → String) (app : String) : Result AppConfig :=
  let appID := viper ("apps." ++ app ++ ".appId")
  let principal := viper ("apps." ++ app ++ ".principalArn")
  let provider := viper ("apps." ++ app ++ ".provider")
  let role := viper ("apps." ++ app ++ ".roleArn")
  if appID = "" then
    .err (errorsNew "appId config value must be set")
  else if principal = "" then
    .err (errorsNew "principalARN config value must be set")
  else if role = "" then
    .err (errorsNew "roleARN config value must be set")
  else
    .ok { ID := appID, PrincipalARN := principal, Provider := provider, RoleARN := role }

/-! ## `onelogin.Get` -/

/-- The Go indexing `xs[i]` with an `int` index: `none` stands for the
index-out-of-range panic. -/
def index {α : Type} (xs : List α) (i : Int) : Option α :=
  if i < 0 then none else xs[i.toNat]?

/-- The loop of lines 93-95: one `printfDevice` per device, numbered from
`i+1`. -/
def printDevices : Nat → List Device → List Effect
  | _, [] => []
  | i, d :: ds => Effect.printfDevice (i + 1) d.DeviceId d.DeviceType :: printDevices (i + 1) ds

/-- A run that ends at once with outcome `o`: a `return` or a panic. -/
def Run.done (o : Outcome) : Run := ⟨[], o⟩

/-- Sequencing: perform the effects `es`, then go on as `r`. -/
def Run.after (es : List Effect) (r : Run) : Run := ⟨es ++ r.trace, r.outcome⟩

/-- The function `Get` of `onelogin/main.go`, statement by statement.  The
operator's `selection` is a Go `int`; `selection-1` is taken in the integers:
the one `int` at which the machine subtraction wraps is the least one, where the
wrapped index is the greatest `int`, out of range for every slice just as the
unwrapped one is. -/
def Get (w : World) (app : String) : Run :=
  -- Read config
  let secret := w.viper "providers.onelogin.clientSecret"
  let id := w.viper "providers.onelogin.clientId"
  let subdomain := w.viper "providers.onelogin.subdomain"
  let user := w.viper "providers.onelogin.username"
  let appId := w.viper ("apps." ++ app ++ ".appId")
  let principal := w.viper ("apps." ++ app ++ ".principalArn")
  let role := w.viper ("apps." ++ app ++ ".roleArn")
  if secret = "" then
    .done (.returned none (some (errorsNew "providers.onelogin.clientSecret config value or ONELOGIN_CLIENT_SECRET environment variable must bet set")))
  else if id = "" then
    .done (.returned none (some (errorsNew "providers.onelogin.clientId config value or ONELOGIN_CLIENT_ID environment variable must bet set")))
  else if subdomain = "" then
    .done (.returned none (some (errorsNew "providers.onelogin.subdomain config value ONELOGIN_SUBDOMAIN environment variable must bet set")))
  else if appId = "" then
    .done (.returned none (some (errorsNew ("Can't find appId for " ++ app ++ " in config file"))))
  else if principal = "" then
    .done (.returned none (some (errorsNew ("Can't find principalArn for " ++ app ++ " in config file"))))
  else if role = "" then
    .done (.returned none (some (errorsNew ("Can't find roleArn for " ++ app ++ " in config file"))))
  else
    -- Get OneLogin access token
    .after [.logGeneratingTokens,
            .GenerateTokens w.GenerateTokensUrl id secret
              (w.GenerateTokens w.GenerateTokensUrl id secret)] <|
    match w.GenerateTokens w.GenerateTokensUrl id secret with
    | .err err => .done (.returned none (some err))
    | .ok token =>
      -- Get credentials from the user
      .after (if user = "" then [.promptUsername, .scanlnUser w.ScanlnUser] else []) <|
      let user := if user = "" then w.ScanlnUser else user
      .after [.promptPassword, .GetPasswd w.GetPasswd] <|
      match w.GetPasswd with
      | .err _ => .done (.returned none (some (errorsNew "Couldn't read password from terminal")))
      | .ok pass =>
        -- Generate SAML assertion
        let pSaml : GenerateSamlAssertionParams :=
          { UsernameOrEmail := user, Password := pass, AppId := appId, Subdomain := subdomain }
        .after [.logGeneratingSaml,
                .GenerateSamlAssertion w.GenerateSamlAssertionUrl token pSaml
                  (w.GenerateSamlAssertion w.GenerateSamlAssertionUrl token pSaml)] <|
        match w.GenerateSamlAssertion w.GenerateSamlAssertionUrl token pSaml with
        | .err err => .done (.returned none (some err))
        | .ok rSaml =>
          match rSaml.Data with
          | [] => .done (.panicked (.indexOutOfRange 0 0))
          | data0 :: _ =>
            let st := data0.StateToken
            let devices := data0.Devices
            .after (if devices.length > 1 then
                printDevices 0 devices
                  ++ [.promptSelection devices.length, .scanlnSelection w.ScanlnSelection]
              else []) <|
            let i : Int := if devices.length > 1 then w.ScanlnSelection - 1 else 0
            match index devices i with
            | none => .done (.panicked (.indexOutOfRange i devices.length))
            | some device =>
              let deviceId := toString device.DeviceId
              -- Verify MFA
              let pMfa : VerifyFactorParams :=
                { AppId := appId, DeviceId := deviceId, StateToken := st,
                  OtpToken := w.ScanlnOtp }
              .after [.promptOtp, .scanlnOtp w.ScanlnOtp,
                      .VerifyFactor w.VerifyFactorUrl token pMfa
                        (w.VerifyFactor w.VerifyFactorUrl token pMfa)] <|
              match w.VerifyFactor w.VerifyFactorUrl token pMfa with
              | .err err => .done (.returned none (some err))
              | .ok rMfa =>
                let samlAssertion := rMfa.Data
                -- Assume role
                let pAssumeRole : AssumeRoleWithSAMLInput :=
                  { PrincipalArn := principal, RoleArn := role, SAMLAssertion := samlAssertion }
                .after [.NewSession w.NewSession] <|
                match w.NewSession with
                | .err e => .done (.panicked (.sessionMust e))
                | .ok _ =>
                  .after [.AssumeRoleWithSAML pAssumeRole (w.AssumeRoleWithSAML pAssumeRole)] <|
                  match w.AssumeRoleWithSAML pAssumeRole with
                  | .err err => .done (.returned none (some err))
                  | .ok resp =>
                    match resp.Credentials with
                    | none => .done (.panicked .nilPointerDereference)
                    | some c =>
                      match c.AccessKeyId, c.SecretAccessKey, c.SessionToken, c.Expiration with
                      | some keyId, some secretKey, some sessionToken, some expiration =>
                        .done (.returned (some
                          { AccessKeyId := keyId, SecretAccessKey := secretKey,
                            SessionToken := sessionToken, Expiration := expiration }) none)
                      | _, _, _, _ => .done (.panicked .nilPointerDereference)

/-! ## The shapes of a run

`Get` is a chain of stages, each ending the run or handing on to the next.  The
functions below name the effects of each stage; `GetRun`, `MfaRun` and `RoleRun`
list the ways a run can go, and `Get_run` shows that every run of `Get` is one
of them. -/

/-- The parameters of the assertion request, lines 71-78; the user name is the
configured one, or the one read from the terminal when none is configured. -/
def samlParams (w : World) (app pass : String) : GenerateSamlAssertionParams :=
  { UsernameOrEmail :=
      if w.viper "providers.onelogin.username" = "" then w.ScanlnUser
      else w.viper "providers.onelogin.username",
    Password := pass,
    AppId := w.viper ("apps." ++ app ++ ".appId"),
    Subdomain := w.viper "providers.onelogin.subdomain" }

/-- The parameters of the factor verification, lines 111-116. -/
def mfaParams (w : World) (app st : String) (device : Device) : VerifyFactorParams :=
  { AppId := w.viper ("apps." ++ app ++ ".appId"),
    DeviceId := toString device.DeviceId,
    StateToken := st,
    OtpToken := w.ScanlnOtp }

/-- The input of the role assumption, lines 126-130. -/
def assumeRoleInput (w : World) (app samlAssertion : String) : AssumeRoleWithSAMLInput :=
  { PrincipalArn := w.viper ("apps." ++ app ++ ".principalArn"),
    RoleArn := w.viper ("apps." ++ app ++ ".roleArn"),
    SAMLAssertion := samlAssertion }

/-- The index used on lines 101 and 103: `selection-1` with more than one
device, `0` otherwise. -/
def deviceIndex (w : World) (devices : List Device) : Int :=
  if devices.length > 1 then w.ScanlnSelection - 1 else 0

/-- Lines 51-52: the log line and the token request, answered with `res`. -/
def runTokens (w : World) (res : Result String) (r : Run) : Run :=
  .after [.logGeneratingTokens,
          .GenerateTokens w.GenerateTokensUrl (w.viper "providers.onelogin.clientId")
            (w.viper "providers.onelogin.clientSecret") res] r

/-- Lines 57-61: the username prompt and the read, when no username is
configured. -/
def usernameEffects (w : World) : List Effect :=
  if w.viper "providers.onelogin.username" = "" then
    [.promptUsername, .scanlnUser w.ScanlnUser] else []

/-- Lines 57-64: the username prompt when no username is configured, then the
password prompt, answered with `res`. -/
def runCredentials (w : World) (res : Result String) (r : Run) : Run :=
  .after (usernameEffects w) <| .after [.promptPassword, .GetPasswd res] r

/-- Lines 70-82: the log line and the assertion request, answered with `res`. -/
def runSaml (w : World) (app token pass : String)
    (res : Result GenerateSamlAssertionResponse) (r : Run) : Run :=
  .after [.logGeneratingSaml,
          .GenerateSamlAssertion w.GenerateSamlAssertionUrl token (samlParams w app pass) res] r

/-- Lines 92-100: with more than one device, the menu, the prompt and the
selection read. -/
def menuEffects (w : World) (devices : List Device) : List Effect :=
  if devices.length > 1 then
    printDevices 0 devices
      ++ [.promptSelection devices.length, .scanlnSelection w.ScanlnSelection]
  else []

/-- Lines 92-100, then the rest of the run. -/
def runMenu (w : World) (devices : List Device) (r : Run) : Run :=
  .after (menuEffects w devices) r

/-- Lines 106-118: the OTP prompt and the factor verification, answered with
`res`. -/
def runVerify (w : World) (app token st : String) (device : Device)
    (res : Result VerifyFactorResponse) (r : Run) : Run :=
  .after [.promptOtp, .scanlnOtp w.ScanlnOtp,
          .VerifyFactor w.VerifyFactorUrl token (mfaParams w app st device) res] r

/-- Line 132: the session, answered with `res`. -/
def runSession (res : Result Unit) (r : Run) : Run :=
  .after [.NewSession res] r

/-- Line 135: the role assumption, answered with `res`. -/
def runAssume (w : World) (app samlAssertion : String)
    (res : Result AssumeRoleWithSAMLOutput) (r : Run) : Run :=
  .after [.AssumeRoleWithSAML (assumeRoleInput w app samlAssertion) res] r

/-- The ways the last stage can go (lines 125-160), once the factor is verified
and `samlAssertion` is in hand. -/
inductive RoleRun (w : World) (app samlAssertion : String) : Run → Prop where
  /-- The session cannot be created and `session.Must` panics (line 132). -/
  | sessionError (e : Error) (hSess : w.NewSession = .err e) :
      RoleRun w app samlAssertion (runSession (.err e) <| .done (.panicked (.sessionMust e)))
  /-- The role assumption fails (line 137). -/
  | assumeError (e : Error) (hSess : w.NewSession = .ok ())
      (hRole : w.AssumeRoleWithSAML (assumeRoleInput w app samlAssertion) = .err e) :
      RoleRun w app samlAssertion (runSession (.ok ()) <|
        runAssume w app samlAssertion (.err e) <| .done (.returned none (some e)))
  /-- The role-assumption response lacks the credentials or one of their four
  fields: a nil pointer is dereferenced (lines 140-143). -/
  | nilField (resp : AssumeRoleWithSAMLOutput) (hSess : w.NewSession = .ok ())
      (hRole : w.AssumeRoleWithSAML (assumeRoleInput w app samlAssertion) = .ok resp)
      (hNil : ∀ keyId secretKey sessionToken expiration,
        resp.Credentials ≠
          some ⟨some keyId, some secretKey, some sessionToken, some expiration⟩) :
      RoleRun w app samlAssertion (runSession (.ok ()) <|
        runAssume w app samlAssertion (.ok resp) <| .done (.panicked .nilPointerDereference))
  /-- The role is assumed and the credentials are returned (line 160). -/
  | success (resp : AssumeRoleWithSAMLOutput) (keyId secretKey sessionToken : String)
      (expiration : Time) (hSess : w.NewSession = .ok ())
      (hRole : w.AssumeRoleWithSAML (assumeRoleInput w app samlAssertion) = .ok resp)
      (hCreds : resp.Credentials =
        some ⟨some keyId, some secretKey, some sessionToken, some expiration⟩) :
      RoleRun w app samlAssertion (runSession (.ok ()) <|
        runAssume w app samlAssertion (.ok resp) <|
        .done (.returned (some ⟨keyId, secretKey, sessionToken, expiration⟩) none))

/-- The ways the device selection and the factor verification can go (lines
89-123), once the assertion response has a `Data[0]`. -/
inductive MfaRun (w : World) (app token : String) (data0 : SamlData) : Run → Prop where
  /-- The device index is out of range (lines 101 and 103). -/
  | noDevice (hDev : index data0.Devices (deviceIndex w data0.Devices) = none) :
      MfaRun w app token data0 (runMenu w data0.Devices <|
        .done (.panicked (.indexOutOfRange (deviceIndex w data0.Devices) data0.Devices.length)))
  /-- The factor verification fails (line 120). -/
  | verifyError (device : Device) (e : Error)
      (hDev : index data0.Devices (deviceIndex w data0.Devices) = some device)
      (hMfa : w.VerifyFactor w.VerifyFactorUrl token (mfaParams w app data0.StateToken device)
        = .err e) :
      MfaRun w app token data0 (runMenu w data0.Devices <|
        runVerify w app token data0.StateToken device (.err e) <|
        .done (.returned none (some e)))
  /-- The factor is verified; the run goes on with the role assumption. -/
  | verified (device : Device) (rMfa : VerifyFactorResponse) (tail : Run)
      (hDev : index data0.Devices (deviceIndex w data0.Devices) = some device)
      (hMfa : w.VerifyFactor w.VerifyFactorUrl token (mfaParams w app data0.StateToken device)
        = .ok rMfa)
      (hTail : RoleRun w app rMfa.Data tail) :
      MfaRun w app token data0 (runMenu w data0.Devices <|
        runVerify w app token data0.StateToken device (.ok rMfa) <| tail)

/-- The ways a run of `Get` in world `w` for `app` can go, each with what the
world answered on the way. -/
inductive GetRun (w : World) (app : String) : Run → Prop where
  /-- A required setting is empty (lines 31-48). -/
  | configError (e : Error)
      (hEmpty : w.viper "providers.onelogin.clientSecret" = "" ∨
        w.viper "providers.onelogin.clientId" = "" ∨
        w.viper "providers.onelogin.subdomain" = "" ∨
        w.viper ("apps." ++ app ++ ".appId") = "" ∨
        w.viper ("apps." ++ app ++ ".principalArn") = "" ∨
        w.viper ("apps." ++ app ++ ".roleArn") = "") :
      GetRun w app (.done (.returned none (some e)))
  /-- The token request fails (line 54). -/
  | tokenError (e : Error)
      (hTok : w.GenerateTokens w.GenerateTokensUrl (w.viper "providers.onelogin.clientId")
        (w.viper "providers.onelogin.clientSecret") = .err e) :
      GetRun w app (runTokens w (.err e) <| .done (.returned none (some e)))
  /-- The password cannot be read (line 66). -/
  | passwordError (token : String) (e : Error)
      (hTok : w.GenerateTokens w.GenerateTokensUrl (w.viper "providers.onelogin.clientId")
        (w.viper "providers.onelogin.clientSecret") = .ok token)
      (hPw : w.GetPasswd = .err e) :
      GetRun w app (runTokens w (.ok token) <| runCredentials w (.err e) <|
        .done (.returned none (some (errorsNew "Couldn't read password from terminal"))))
  /-- The assertion request fails (line 84). -/
  | samlError (token pass : String) (e : Error)
      (hTok : w.GenerateTokens w.GenerateTokensUrl (w.viper "providers.onelogin.clientId")
        (w.viper "providers.onelogin.clientSecret") = .ok token)
      (hPw : w.GetPasswd = .ok pass)
      (hSaml : w.GenerateSamlAssertion w.GenerateSamlAssertionUrl token (samlParams w app pass)
        = .err e) :
      GetRun w app (runTokens w (.ok token) <| runCredentials w (.ok pass) <|
        runSaml w app token pass (.err e) <| .done (.returned none (some e)))
  /-- The assertion response has no `Data[0]` (line 87). -/
  | noData (token pass : String) (rSaml : GenerateSamlAssertionResponse)
      (hTok : w.GenerateTokens w.GenerateTokensUrl (w.viper "providers.onelogin.clientId")
        (w.viper "providers.onelogin.clientSecret") = .ok token)
      (hPw : w.GetPasswd = .ok pass)
      (hSaml : w.GenerateSamlAssertion w.GenerateSamlAssertionUrl token (samlParams w app pass)
        = .ok rSaml)
      (hData : rSaml.Data = []) :
      GetRun w app (runTokens w (.ok token) <| runCredentials w (.ok pass) <|
        runSaml w app token pass (.ok rSaml) <| .done (.panicked (.indexOutOfRange 0 0)))
  /-- The assertion response has a `Data[0]`; the run goes on with the device
  selection. -/
  | challenge (token pass : String) (rSaml : GenerateSamlAssertionResponse)
      (data0 : SamlData) (rest : List SamlData) (tail : Run)
      (hTok : w.GenerateTokens w.GenerateTokensUrl (w.viper "providers.onelogin.clientId")
        (w.viper "providers.onelogin.clientSecret") = .ok token)
      (hPw : w.GetPasswd = .ok pass)
      (hSaml : w.GenerateSamlAssertion w.GenerateSamlAssertionUrl token (samlParams w app pass)
        = .ok rSaml)
      (hData : rSaml.Data = data0 :: rest)
      (hTail : MfaRun w app token data0 tail) :
      GetRun w app (runTokens w (.ok token) <| runCredentials w (.ok pass) <|
        runSaml w app token pass (.ok rSaml) <| tail)

/-! ## Observations on traces -/

/-- The error of a failed network stage: token acquisition, SAML assertion
generation, factor verification or role assumption answered with an error. -/
def Effect.networkFailure : Effect → Option Error
  | .GenerateTokens _ _ _ (.err e) => some e
  | .GenerateSamlAssertion _ _ _ (.err e) => some e
  | .VerifyFactor _ _ _ (.err e) => some e
  | .AssumeRoleWithSAML _ (.err e) => some e
  | _ => none

/-- The effects that follow the assertion request in a trace. -/
def afterAssertion : List Effect → List Effect
  | [] => []
  | .GenerateSamlAssertion _ _ _ _ :: es => es
  | _ :: es => afterAssertion es

/-- The parameters of a `VerifyFactor` call. -/
def Effect.verifyFactorParams : Effect → Option VerifyFactorParams
  | .VerifyFactor _ _ p _ => some p
  | _ => none

/-- The parameters of the `VerifyFactor` calls of a trace, in order. -/
def verifyFactorCalls (trace : List Effect) : List VerifyFactorParams :=
  trace.filterMap Effect.verifyFactorParams

/-- The devices of `Data[0]` of the first assertion response of a trace; none
when no assertion was returned. -/
def offeredDevices : List Effect → List Device
  | [] => []
  | .GenerateSamlAssertion _ _ _ (.ok r) :: _ =>
    match r.Data with
    | [] => []
    | data0 :: _ => data0.Devices
  | _ :: es => offeredDevices es

/-- The eight stages of the handshake. -/
inductive Stage where
  | tokenAcquisition
  | usernamePrompt
  | passwordPrompt
  | assertionRequest
  | deviceMenu
  | otpPrompt
  | factorVerification
  | roleAssumption
  deriving DecidableEq, Repr

/-- The statement an effect comes from: the effect without the arguments passed
and the answer received.  A menu line keeps its number. -/
inductive Step where
  | logGeneratingTokens
  | GenerateTokens
  | promptUsername
  | scanlnUser
  | promptPassword
  | GetPasswd
  | logGeneratingSaml
  | GenerateSamlAssertion
  | printfDevice (number : Nat)
  | promptSelection
  | scanlnSelection
  | promptOtp
  | scanlnOtp
  | VerifyFactor
  | NewSession
  | AssumeRoleWithSAML
  deriving DecidableEq, Repr

/-- The statement of an effect. -/
def Effect.step : Effect → Step
  | .logGeneratingTokens => .logGeneratingTokens
  | .GenerateTokens _ _ _ _ => .GenerateTokens
  | .promptUsername => .promptUsername
  | .scanlnUser _ => .scanlnUser
  | .promptPassword => .promptPassword
  | .GetPasswd _ => .GetPasswd
  | .logGeneratingSaml => .logGeneratingSaml
  | .GenerateSamlAssertion _ _ _ _ => .GenerateSamlAssertion
  | .printfDevice number _ _ => .printfDevice number
  | .promptSelection _ => .promptSelection
  | .scanlnSelection _ => .scanlnSelection
  | .promptOtp => .promptOtp
  | .scanlnOtp _ => .scanlnOtp
  | .VerifyFactor _ _ _ _ => .VerifyFactor
  | .NewSession _ => .NewSession
  | .AssumeRoleWithSAML _ _ => .AssumeRoleWithSAML

/-- The stage a statement belongs to, by the sections of `Get`: the log line of
line 51 goes with the token request, that of line 70 with the assertion
request, the session of line 132 with the role assumption. -/
def Step.stage : Step → Stage
  | .logGeneratingTokens => .tokenAcquisition
  | .GenerateTokens => .tokenAcquisition
  | .promptUsername => .usernamePrompt
  | .scanlnUser => .usernamePrompt
  | .promptPassword => .passwordPrompt
  | .GetPasswd => .passwordPrompt
  | .logGeneratingSaml => .assertionRequest
  | .GenerateSamlAssertion => .assertionRequest
  | .printfDevice _ => .deviceMenu
  | .promptSelection => .deviceMenu
  | .scanlnSelection => .deviceMenu
  | .promptOtp => .otpPrompt
  | .scanlnOtp => .otpPrompt
  | .VerifyFactor => .factorVerification
  | .NewSession => .roleAssumption
  | .AssumeRoleWithSAML => .roleAssumption

/-- The stage of an effect. -/
def Effect.stage (e : Effect) : Stage := e.step.stage

/-- The statements of a stage, in order; `n` is the number of devices on the
menu. -/
def stageSteps (n : Nat) : Stage → List Step
  | .tokenAcquisition => [.logGeneratingTokens, .GenerateTokens]
  | .usernamePrompt => [.promptUsername, .scanlnUser]
  | .passwordPrompt => [.promptPassword, .GetPasswd]
  | .assertionRequest => [.logGeneratingSaml, .GenerateSamlAssertion]
  | .deviceMenu =>
    (List.range n).map (fun i => Step.printfDevice (i + 1)) ++ [.promptSelection, .scanlnSelection]
  | .otpPrompt => [.promptOtp, .scanlnOtp]
  | .factorVerification => [.VerifyFactor]
  | .roleAssumption => [.NewSession, .AssumeRoleWithSAML]

/-- The fixed order of the stages: the username prompt is there only when no
username is configured, the device menu only with more than one device. -/
def stageSequence (userConfigured : Bool) (n : Nat) : List Stage :=
  [.tokenAcquisition] ++ (if userConfigured then [] else [.usernamePrompt])
    ++ [.passwordPrompt, .assertionRequest] ++ (if n > 1 then [.deviceMenu] else [])
    ++ [.otpPrompt, .factorVerification, .roleAssumption]

/-- The fixed order of the statements: those of each stage of `stageSequence`,
one stage after the other. -/
def script (userConfigured : Bool) (n : Nat) : List Step :=
  (stageSequence userConfigured n).flatMap (stageSteps n)

/-! ## Concrete worlds used as examples -/

/-- A configuration with every setting of provider `onelogin` and of app `dev`
present, except the app's provider name. -/
def exampleViper : String → String := fun key =>
  if key = "providers.onelogin.clientSecret" then "sec1"
  else if key = "providers.onelogin.clientId" then "id1"
  else if key = "providers.onelogin.clientID" then "id1"
  else if key = "providers.onelogin.subdomain" then "acme"
  else if key = "apps.dev.appId" then "app1"
  else if key = "apps.dev.principalArn" then "arn:p"
  else if key = "apps.dev.roleArn" then "arn:r"
  else ""

/-- The first example device. -/
def deviceAuthenticator : Device := { DeviceId := 11, DeviceType := "Google Authenticator" }

/-- The second example device. -/
def deviceYubiKey : Device := { DeviceId := 22, DeviceType := "Yubico YubiKey" }

/-- An assertion response with state token "st1" and the given devices. -/
def challenge (devices : List Device) : GenerateSamlAssertionResponse :=
  { Data := [{ StateToken := "st1", Devices := devices }] }

/-- The parameters of the assertion request in the example worlds. -/
def exampleSamlParams : GenerateSamlAssertionParams :=
  { UsernameOrEmail := "alice", Password := "pw", AppId := "app1", Subdomain := "acme" }

/-- The role-assumption response of the example worlds. -/
def exampleRoleResponse : AssumeRoleWithSAMLOutput :=
  { Credentials := some { AccessKeyId := some "AK", SecretAccessKey := some "SK",
                          SessionToken := some "ST", Expiration := some ⟨1700000000⟩ } }

/-- Scenario C of the spec: the configuration of `exampleViper` (no username
configured), token "tok", two devices, the operator selects 2. -/
def worldTwoDevices : World where
  viper := exampleViper
  GenerateTokensUrl := "https://idp.example/token"
  GenerateSamlAssertionUrl := "https://idp.example/saml_assertion"
  VerifyFactorUrl := "https://idp.example/verify_factor"
  GenerateTokens := fun _ _ _ => Result.ok "tok"
  ScanlnUser := "alice"
  GetPasswd := Result.ok "pw"
  GenerateSamlAssertion := fun _ _ _ => Result.ok (challenge [deviceAuthenticator, deviceYubiKey])
  ScanlnSelection := 2
  ScanlnOtp := "123456"
  VerifyFactor := fun _ _ _ => Result.ok { Data := "SAMLDATA" }
  NewSession := Result.ok ()
  AssumeRoleWithSAML := fun _ => Result.ok exampleRoleResponse

/-- Scenario A of the spec: as `worldTwoDevices`, with a single device. -/
def worldOneDevice : World :=
  { worldTwoDevices with
    GenerateSamlAssertion := fun _ _ _ => Result.ok (challenge [deviceAuthenticator]) }

/-- Scenario B of the spec: the token service answers with an error. -/
def worldTokenError : World :=
  { worldTwoDevices with GenerateTokens := fun _ _ _ => Result.err ⟨"401 Unauthorized"⟩ }

/-- As `worldTwoDevices`, with an assertion response that carries no MFA
device. -/
def worldNoDevice : World :=
  { worldTwoDevices with GenerateSamlAssertion := fun _ _ _ => Result.ok (challenge []) }

/-- As `worldTwoDevices` (two devices), the operator types 3. -/
def worldSelectionThree : World :=
  { worldTwoDevices with ScanlnSelection := 3 }

/-- As `worldTwoDevices` (two devices), the operator types something that is
not a number: `selection` stays 0. -/
def worldSelectionZero : World :=
  { worldTwoDevices with ScanlnSelection := 0 }

/-- As `worldTwoDevices`, with a configuration in which only the role of app
`dev` is missing. -/
def worldNoRoleArn : World :=
  { worldTwoDevices with
    viper := fun key => if key = "apps.dev.roleArn" then "" else exampleViper key }

/-! # Theorems -/

/-! ## Every run of `Get` has one of the shapes of `GetRun` -/

/-- A run that ends at once has no effect. -/
@[simp] theorem Run.trace_done (o : Outcome) : (Run.done o).trace = [] := rfl

/-- A run that ends at once has the outcome given. -/
@[simp] theorem Run.outcome_done (o : Outcome) : (Run.done o).outcome = o := rfl

/-- Sequencing puts the effects in front. -/
@[simp] theorem Run.trace_after (es : List Effect) (r : Run) :
    (Run.after es r).trace = es ++ r.trace := rfl

/-- Sequencing keeps the outcome. -/
@[simp] theorem Run.outcome_after (es : List Effect) (r : Run) :
    (Run.after es r).outcome = r.outcome := rfl

/-- Every run of `Get` has one of the shapes listed by `GetRun`. -/
theorem Get_run (w : World) (app : String) : GetRun w app (Get w app) := by
  by_cases h1 : w.viper "providers.onelogin.clientSecret" = ""
  · simp only [Get, if_pos h1]; exact .configError _ (Or.inl h1)
  by_cases h2 : w.viper "providers.onelogin.clientId" = ""
  · simp only [Get, if_neg h1, if_pos h2]; exact .configError _ (Or.inr (Or.inl h2))
  by_cases h3 : w.viper "providers.onelogin.subdomain" = ""
  · simp only [Get, if_neg h1, if_neg h2, if_pos h3]
    exact .configError _ (Or.inr (Or.inr (Or.inl h3)))
  by_cases h4 : w.viper ("apps." ++ app ++ ".appId") = ""
  · simp only [Get, if_neg h1, if_neg h2, if_neg h3, if_pos h4]
    exact .configError _ (Or.inr (Or.inr (Or.inr (Or.inl h4))))
  by_cases h5 : w.viper ("apps." ++ app ++ ".principalArn") = ""
  · simp only [Get, if_neg h1, if_neg h2, if_neg h3, if_neg h4, if_pos h5]
    exact .configError _ (Or.inr (Or.inr (Or.inr (Or.inr (Or.inl h5)))))
  by_cases h6 : w.viper ("apps." ++ app ++ ".roleArn") = ""
  · simp only [Get, if_neg h1, if_neg h2, if_neg h3, if_neg h4, if_neg h5, if_pos h6]
    exact .configError _ (Or.inr (Or.inr (Or.inr (Or.inr (Or.inr h6)))))
  cases hTok : w.GenerateTokens w.GenerateTokensUrl (w.viper "providers.onelogin.clientId")
      (w.viper "providers.onelogin.clientSecret") with
  | err e =>
    simp only [Get, if_neg h1, if_neg h2, if_neg h3, if_neg h4, if_neg h5, if_neg h6, hTok]
    exact .tokenError e hTok
  | ok token =>
  cases hPw : w.GetPasswd with
  | err e =>
    simp only [Get, if_neg h1, if_neg h2, if_neg h3, if_neg h4, if_neg h5, if_neg h6, hTok, hPw]
    exact .passwordError token e hTok hPw
  | ok pass =>
  cases hSaml : w.GenerateSamlAssertion w.GenerateSamlAssertionUrl token
      (samlParams w app pass) with
  | err e =>
    have hSaml2 := hSaml
    simp only [samlParams] at hSaml2
    simp only [Get, if_neg h1, if_neg h2, if_neg h3, if_neg h4, if_neg h5, if_neg h6, hTok, hPw,
      hSaml2]
    exact .samlError token pass e hTok hPw hSaml
  | ok rSaml =>
  have hSaml2 := hSaml
  simp only [samlParams] at hSaml2
  rcases hData : rSaml.Data with _ | ⟨data0, rest⟩
  · simp only [Get, if_neg h1, if_neg h2, if_neg h3, if_neg h4, if_neg h5, if_neg h6, hTok, hPw,
      hSaml2, hData]
    exact .noData token pass rSaml hTok hPw hSaml hData
  cases hDev : index data0.Devices (deviceIndex w data0.Devices) with
  | none =>
    have hDev2 := hDev
    simp only [deviceIndex] at hDev2
    simp only [Get, if_neg h1, if_neg h2, if_neg h3, if_neg h4, if_neg h5, if_neg h6, hTok, hPw,
      hSaml2, hData, hDev2]
    exact .challenge token pass rSaml data0 rest _ hTok hPw hSaml hData (.noDevice hDev)
  | some device =>
  have hDev2 := hDev
  simp only [deviceIndex] at hDev2
  cases hMfa : w.VerifyFactor w.VerifyFactorUrl token
      (mfaParams w app data0.StateToken device) with
  | err e =>
    have hMfa2 := hMfa
    simp only [mfaParams] at hMfa2
    simp only [Get, if_neg h1, if_neg h2, if_neg h3, if_neg h4, if_neg h5, if_neg h6, hTok, hPw,
      hSaml2, hData, hDev2, hMfa2]
    exact .challenge token pass rSaml data0 rest _ hTok hPw hSaml hData
      (.verifyError device e hDev hMfa)
  | ok rMfa =>
  have hMfa2 := hMfa
  simp only [mfaParams] at hMfa2
  cases hSess : w.NewSession with
  | err e =>
    simp only [Get, if_neg h1, if_neg h2, if_neg h3, if_neg h4, if_neg h5, if_neg h6, hTok, hPw,
      hSaml2, hData, hDev2, hMfa2, hSess]
    exact .challenge token pass rSaml data0 rest _ hTok hPw hSaml hData
      (.verified device rMfa _ hDev hMfa (.sessionError e hSess))
  | ok u =>
  cases hRole : w.AssumeRoleWithSAML (assumeRoleInput w app rMfa.Data) with
  | err e =>
    have hRole2 := hRole
    simp only [assumeRoleInput] at hRole2
    simp only [Get, if_neg h1, if_neg h2, if_neg h3, if_neg h4, if_neg h5, if_neg h6, hTok, hPw,
      hSaml2, hData, hDev2, hMfa2, hSess, hRole2]
    exact .challenge token pass rSaml data0 rest _ hTok hPw hSaml hData
      (.verified device rMfa _ hDev hMfa (.assumeError e hSess hRole))
  | ok resp =>
  have hRole2 := hRole
  simp only [assumeRoleInput] at hRole2
  rcases hC : resp.Credentials with _ | ⟨⟨_ | keyId, _ | secretKey, _ | sessionToken, _ | expiration⟩⟩
  all_goals
    simp only [Get, if_neg h1, if_neg h2, if_neg h3, if_neg h4, if_neg h5, if_neg h6, hTok, hPw,
      hSaml2, hData, hDev2, hMfa2, hSess, hRole2, hC]
  all_goals
    first
    | exact .challenge token pass rSaml data0 rest _ hTok hPw hSaml hData
        (.verified device rMfa _ hDev hMfa
          (.success resp keyId secretKey sessionToken expiration hSess hRole hC))
    | exact .challenge token pass rSaml data0 rest _ hTok hPw hSaml hData
        (.verified device rMfa _ hDev hMfa (.nilField resp hSess hRole (by simp [hC])))

/-! ## Traces of the stages -/

/-- The trace of `runTokens`. -/
@[simp] theorem runTokens_trace (w : World) (res : Result String) (r : Run) :
    (runTokens w res r).trace =
      Effect.logGeneratingTokens ::
        Effect.GenerateTokens w.GenerateTokensUrl (w.viper "providers.onelogin.clientId")
          (w.viper "providers.onelogin.clientSecret") res :: r.trace := rfl

/-- The outcome of `runTokens`. -/
@[simp] theorem runTokens_outcome (w : World) (res : Result String) (r : Run) :
    (runTokens w res r).outcome = r.outcome := rfl

/-- The trace of `runCredentials`. -/
@[simp] theorem runCredentials_trace (w : World) (res : Result String) (r : Run) :
    (runCredentials w res r).trace =
      usernameEffects w ++ Effect.promptPassword :: Effect.GetPasswd res :: r.trace := rfl

/-- The outcome of `runCredentials`. -/
@[simp] theorem runCredentials_outcome (w : World) (res : Result String) (r : Run) :
    (runCredentials w res r).outcome = r.outcome := rfl

/-- The trace of `runSaml`. -/
@[simp] theorem runSaml_trace (w : World) (app token pass : String)
    (res : Result GenerateSamlAssertionResponse) (r : Run) :
    (runSaml w app token pass res r).trace =
      Effect.logGeneratingSaml ::
        Effect.GenerateSamlAssertion w.GenerateSamlAssertionUrl token (samlParams w app pass) res
          :: r.trace := rfl

/-- The outcome of `runSaml`. -/
@[simp] theorem runSaml_outcome (w : World) (app token pass : String)
    (res : Result GenerateSamlAssertionResponse) (r : Run) :
    (runSaml w app token pass res r).outcome = r.outcome := rfl

/-- The trace of `runMenu`. -/
@[simp] theorem runMenu_trace (w : World) (devices : List Device) (r : Run) :
    (runMenu w devices r).trace =
      menuEffects w devices ++ r.trace := rfl

/-- The outcome of `runMenu`. -/
@[simp] theorem runMenu_outcome (w : World) (devices : List Device) (r : Run) :
    (runMenu w devices r).outcome = r.outcome := rfl

/-- The trace of `runVerify`. -/
@[simp] theorem runVerify_trace (w : World) (app token st : String) (device : Device)
    (res : Result VerifyFactorResponse) (r : Run) :
    (runVerify w app token st device res r).trace =
      Effect.promptOtp :: Effect.scanlnOtp w.ScanlnOtp ::
        Effect.VerifyFactor w.VerifyFactorUrl token (mfaParams w app st device) res
          :: r.trace := rfl

/-- The outcome of `runVerify`. -/
@[simp] theorem runVerify_outcome (w : World) (app token st : String) (device : Device)
    (res : Result VerifyFactorResponse) (r : Run) :
    (runVerify w app token st device res r).outcome = r.outcome := rfl

/-- The trace of `runSession`. -/
@[simp] theorem runSession_trace (res : Result Unit) (r : Run) :
    (runSession res r).trace = Effect.NewSession res :: r.trace := rfl

/-- The outcome of `runSession`. -/
@[simp] theorem runSession_outcome (res : Result Unit) (r : Run) :
    (runSession res r).outcome = r.outcome := rfl

/-- The trace of `runAssume`. -/
@[simp] theorem runAssume_trace (w : World) (app samlAssertion : String)
    (res : Result AssumeRoleWithSAMLOutput) (r : Run) :
    (runAssume w app samlAssertion res r).trace =
      Effect.AssumeRoleWithSAML (assumeRoleInput w app samlAssertion) res :: r.trace := rfl

/-- The outcome of `runAssume`. -/
@[simp] theorem runAssume_outcome (w : World) (app samlAssertion : String)
    (res : Result AssumeRoleWithSAMLOutput) (r : Run) :
    (runAssume w app samlAssertion res r).outcome = r.outcome := rfl

/-- The menu lines are the devices, numbered in the order of the response. -/
theorem mem_printDevices_iff {e : Effect} {i : Nat} {ds : List Device} :
    e ∈ printDevices i ds ↔
      ∃ j d, ds[j]? = some d ∧ e = Effect.printfDevice (i + j + 1) d.DeviceId d.DeviceType := by
  induction ds generalizing i with
  | nil => simp [printDevices]
  | cons d ds ih =>
    simp only [printDevices, List.mem_cons, ih]
    constructor
    · rintro (h | ⟨j, d', hj, h⟩)
      · exact ⟨0, d, by simp, by simpa using h⟩
      · exact ⟨j + 1, d', by simpa using hj, by rw [h]; congr 1; omega⟩
    · rintro ⟨j, d', hj, h⟩
      cases j with
      | zero =>
        left
        simp at hj
        subst hj
        simpa using h
      | succ j =>
        right
        exact ⟨j, d', by simpa using hj, by rw [h]; congr 1; omega⟩

/-- The effects of the username prompt belong to that stage. -/
theorem stage_of_mem_usernameEffects {w : World} {ev : Effect} (h : ev ∈ usernameEffects w) :
    ev.stage = Stage.usernamePrompt := by
  unfold usernameEffects at h
  split_ifs at h
  · simp only [List.mem_cons, List.mem_singleton, List.not_mem_nil, or_false] at h
    rcases h with rfl | rfl <;> rfl
  · simp at h

/-- The effects of the device menu belong to that stage. -/
theorem stage_of_mem_menuEffects {w : World} {ds : List Device} {ev : Effect}
    (h : ev ∈ menuEffects w ds) : ev.stage = Stage.deviceMenu := by
  unfold menuEffects at h
  split_ifs at h
  · simp only [List.mem_append, mem_printDevices_iff, List.mem_cons, List.mem_singleton,
      List.not_mem_nil, or_false] at h
    rcases h with ⟨j, d, -, rfl⟩ | rfl | rfl <;> rfl
  · simp at h

/-- No effect of the username prompt is a network call. -/
theorem networkFailure_of_usernamePrompt {ev : Effect} (h : ev.stage = Stage.usernamePrompt) :
    ev.networkFailure = none := by
  cases ev <;> first | rfl | (exact absurd h (fun h => Stage.noConfusion h))

/-- No effect of the device menu is a network call. -/
theorem networkFailure_of_deviceMenu {ev : Effect} (h : ev.stage = Stage.deviceMenu) :
    ev.networkFailure = none := by
  cases ev <;> first | rfl | (exact absurd h (fun h => Stage.noConfusion h))

/-- The last element of a list stays the last when a list is put in front. -/
theorem getLast?_append_of_getLast? {α : Type} {l t : List α} {x : α}
    (h : t.getLast? = some x) : (l ++ t).getLast? = some x := by
  rw [List.getLast?_append, h]
  rfl

/-- Every effect of the last stage belongs to the role assumption. -/
theorem RoleRun.stage_role {w : World} {app a : String} {tail : Run}
    (h : RoleRun w app a tail) {ev : Effect} (hmem : ev ∈ tail.trace) :
    ev.stage = Stage.roleAssumption := by
  cases h <;> simp at hmem <;> rcases hmem with rfl | rfl <;> rfl

/-- Every effect after the assertion response belongs to one of the last four stages. -/
theorem MfaRun.stage_late {w : World} {app token : String} {data0 : SamlData} {tail : Run}
    (h : MfaRun w app token data0 tail) {ev : Effect} (hmem : ev ∈ tail.trace) :
    ev.stage = Stage.deviceMenu ∨ ev.stage = Stage.otpPrompt ∨
      ev.stage = Stage.factorVerification ∨ ev.stage = Stage.roleAssumption := by
  cases h with
  | noDevice hDev =>
    simp only [runMenu_trace, Run.trace_done, List.append_nil] at hmem
    exact Or.inl (stage_of_mem_menuEffects hmem)
  | verifyError device e' hDev hMfa =>
    simp only [runMenu_trace, runVerify_trace, Run.trace_done, List.mem_append, List.mem_cons,
      List.not_mem_nil, or_false] at hmem
    rcases hmem with hmem | rfl | rfl | rfl
    · exact Or.inl (stage_of_mem_menuEffects hmem)
    · exact Or.inr (Or.inl rfl)
    · exact Or.inr (Or.inl rfl)
    · exact Or.inr (Or.inr (Or.inl rfl))
  | verified device rMfa tail2 hDev hMfa hTail =>
    simp only [runMenu_trace, runVerify_trace, List.mem_append, List.mem_cons] at hmem
    rcases hmem with hmem | rfl | rfl | rfl | hmem
    · exact Or.inl (stage_of_mem_menuEffects hmem)
    · exact Or.inr (Or.inl rfl)
    · exact Or.inr (Or.inl rfl)
    · exact Or.inr (Or.inr (Or.inl rfl))
    · exact Or.inr (Or.inr (Or.inr (hTail.stage_role hmem)))

/-- In the last stage a failed network call ends the run with its error. -/
theorem RoleRun.role_failure {w : World} {app a : String} {tail : Run} (h : RoleRun w app a tail)
    {ev : Effect} {e : Error} (hmem : ev ∈ tail.trace) (hfail : ev.networkFailure = some e) :
    tail.outcome = Outcome.returned none (some e) ∧ tail.trace.getLast? = some ev := by
  cases h <;> simp at hmem ⊢ <;> rcases hmem with rfl | rfl <;>
    simp_all [Effect.networkFailure]

/-- After the assertion response a failed network call ends the run with its error. -/
theorem MfaRun.mfa_failure {w : World} {app token : String} {data0 : SamlData} {tail : Run}
    (h : MfaRun w app token data0 tail)
    {ev : Effect} {e : Error} (hmem : ev ∈ tail.trace) (hfail : ev.networkFailure = some e) :
    tail.outcome = Outcome.returned none (some e) ∧ tail.trace.getLast? = some ev := by
  cases h with
  | noDevice hDev =>
    simp only [runMenu_trace, Run.trace_done, List.append_nil] at hmem
    rw [networkFailure_of_deviceMenu (stage_of_mem_menuEffects hmem)] at hfail
    cases hfail
  | verifyError device e' hDev hMfa =>
    simp only [runMenu_trace, runVerify_trace, Run.trace_done, List.mem_append, List.mem_cons,
      List.not_mem_nil, or_false] at hmem
    rcases hmem with hmem | rfl | rfl | rfl
    · rw [networkFailure_of_deviceMenu (stage_of_mem_menuEffects hmem)] at hfail
      cases hfail
    · cases hfail
    · cases hfail
    · simp only [Effect.networkFailure, Option.some.injEq] at hfail
      subst hfail
      refine ⟨rfl, ?_⟩
      simp only [runMenu_trace, runVerify_trace, Run.trace_done]
      exact getLast?_append_of_getLast? rfl
  | verified device rMfa tail2 hDev hMfa hTail =>
    simp only [runMenu_trace, runVerify_trace, List.mem_append, List.mem_cons] at hmem
    rcases hmem with hmem | rfl | rfl | rfl | hmem
    · rw [networkFailure_of_deviceMenu (stage_of_mem_menuEffects hmem)] at hfail
      cases hfail
    · cases hfail
    · cases hfail
    · cases hfail
    · obtain ⟨h1, h2⟩ := hTail.role_failure hmem hfail
      refine ⟨h1, ?_⟩
      simp only [runMenu_trace, runVerify_trace]
      exact getLast?_append_of_getLast?
        (getLast?_append_of_getLast? (l := [_, _, _]) h2)

/-- An effect after the assertion response is one of the menu, or belongs to a later stage. -/
theorem MfaRun.mfa_mem_cases {w : World} {app token : String} {data0 : SamlData} {tail : Run}
    (h : MfaRun w app token data0 tail) {ev : Effect} (hmem : ev ∈ tail.trace) :
    ev ∈ menuEffects w data0.Devices ∨ ev.stage = Stage.otpPrompt ∨
      ev.stage = Stage.factorVerification ∨ ev.stage = Stage.roleAssumption := by
  cases h with
  | noDevice hDev =>
    simp only [runMenu_trace, Run.trace_done, List.append_nil] at hmem
    exact Or.inl hmem
  | verifyError device e' hDev hMfa =>
    simp only [runMenu_trace, runVerify_trace, Run.trace_done, List.mem_append, List.mem_cons,
      List.not_mem_nil, or_false] at hmem
    rcases hmem with hmem | rfl | rfl | rfl
    · exact Or.inl hmem
    · exact Or.inr (Or.inl rfl)
    · exact Or.inr (Or.inl rfl)
    · exact Or.inr (Or.inr (Or.inl rfl))
  | verified device rMfa tail2 hDev hMfa hTail =>
    simp only [runMenu_trace, runVerify_trace, List.mem_append, List.mem_cons] at hmem
    rcases hmem with hmem | rfl | rfl | rfl | hmem
    · exact Or.inl hmem
    · exact Or.inr (Or.inl rfl)
    · exact Or.inr (Or.inl rfl)
    · exact Or.inr (Or.inr (Or.inl rfl))
    · exact Or.inr (Or.inr (Or.inr (hTail.stage_role hmem)))

/-- The trace of a run that got an assertion response, in the form `simp`
gives it. -/
theorem assertion_trace (w : World) (app token pass : String) (r1 r2 : Result String)
    (res : Result GenerateSamlAssertionResponse) (tail : Run) :
    (runTokens w r1 (runCredentials w r2 (runSaml w app token pass res tail))).trace =
      (Effect.logGeneratingTokens ::
        Effect.GenerateTokens w.GenerateTokensUrl (w.viper "providers.onelogin.clientId")
          (w.viper "providers.onelogin.clientSecret") r1 ::
        (usernameEffects w ++ [Effect.promptPassword, Effect.GetPasswd r2,
          Effect.logGeneratingSaml])) ++
      Effect.GenerateSamlAssertion w.GenerateSamlAssertionUrl token (samlParams w app pass) res
        :: tail.trace := by
  simp

/-- The effects before the assertion request belong to the first stages. -/
theorem stage_of_mem_assertionLead {w : World} {r1 r2 : Result String} {ev : Effect}
    (h : ev ∈ Effect.logGeneratingTokens ::
        Effect.GenerateTokens w.GenerateTokensUrl (w.viper "providers.onelogin.clientId")
          (w.viper "providers.onelogin.clientSecret") r1 ::
        (usernameEffects w ++ [Effect.promptPassword, Effect.GetPasswd r2,
          Effect.logGeneratingSaml])) :
    ev.stage = Stage.tokenAcquisition ∨ ev.stage = Stage.usernamePrompt ∨
      ev.stage = Stage.passwordPrompt ∨
      ev = Effect.logGeneratingSaml := by
  simp only [List.mem_cons, List.mem_append, List.not_mem_nil, or_false] at h
  rcases h with rfl | rfl | h | rfl | rfl | rfl
  · exact Or.inl rfl
  · exact Or.inl rfl
  · exact Or.inr (Or.inl (stage_of_mem_usernameEffects h))
  · exact Or.inr (Or.inr (Or.inl rfl))
  · exact Or.inr (Or.inr (Or.inl rfl))
  · exact Or.inr (Or.inr (Or.inr rfl))

/-- Behind effects that are no assertion request, `afterAssertion` gives what follows the request. -/
theorem afterAssertion_append_cons {pre : List Effect}
    (hpre : ∀ ev ∈ pre, ev.step ≠ Step.GenerateSamlAssertion) (url token : String)
    (p : GenerateSamlAssertionParams) (res : Result GenerateSamlAssertionResponse)
    (rest : List Effect) :
    afterAssertion (pre ++ Effect.GenerateSamlAssertion url token p res :: rest) = rest := by
  induction pre with
  | nil => rfl
  | cons a pre ih =>
    have ha := hpre a (List.mem_cons_self _ _)
    have ih' := ih (fun ev hev => hpre ev (List.mem_cons_of_mem _ hev))
    cases a <;> first | exact ih' | exact absurd rfl ha

/-- No effect before the assertion request is an assertion request. -/
theorem step_of_mem_assertionLead {w : World} {r1 r2 : Result String} {ev : Effect}
    (h : ev ∈ Effect.logGeneratingTokens ::
        Effect.GenerateTokens w.GenerateTokensUrl (w.viper "providers.onelogin.clientId")
          (w.viper "providers.onelogin.clientSecret") r1 ::
        (usernameEffects w ++ [Effect.promptPassword, Effect.GetPasswd r2,
          Effect.logGeneratingSaml])) :
    ev.step ≠ Step.GenerateSamlAssertion := by
  rcases stage_of_mem_assertionLead h with h | h | h | rfl
  · intro hs; simp [Effect.stage, hs, Step.stage] at h
  · intro hs; simp [Effect.stage, hs, Step.stage] at h
  · intro hs; simp [Effect.stage, hs, Step.stage] at h
  · intro hs; cases hs

/-- In a run that made the assertion request, `afterAssertion` gives the trace of the rest of the run. -/
theorem afterAssertion_assertion_trace (w : World) (app token pass : String)
    (r1 r2 : Result String) (res : Result GenerateSamlAssertionResponse) (tail : Run) :
    afterAssertion
      (runTokens w r1 (runCredentials w r2 (runSaml w app token pass res tail))).trace
      = tail.trace := by
  rw [assertion_trace]
  exact afterAssertion_append_cons (fun ev hev => step_of_mem_assertionLead hev) _ _ _ _ _

/-- A run whose trace holds an assertion request got a token, read a password
and made the request with them. -/
theorem GetRun.of_assertion_request {w : World} {app : String} {run : Run}
    (hrun : GetRun w app run) {url tok : String} {p : GenerateSamlAssertionParams}
    {res : Result GenerateSamlAssertionResponse}
    (hmem : Effect.GenerateSamlAssertion url tok p res ∈ run.trace) :
    ∃ pass tail,
      run = runTokens w (Result.ok tok) (runCredentials w (Result.ok pass)
        (runSaml w app tok pass res tail)) ∧
      url = w.GenerateSamlAssertionUrl ∧ p = samlParams w app pass ∧
      ((∃ e, res = Result.err e ∧ tail = Run.done (Outcome.returned none (some e))) ∨
       (∃ r, res = Result.ok r ∧ r.Data = [] ∧
          tail = Run.done (Outcome.panicked (Panic.indexOutOfRange 0 0))) ∨
       ∃ r data0 rest, res = Result.ok r ∧ r.Data = data0 :: rest ∧
          MfaRun w app tok data0 tail) := by
  cases hrun with
  | configError e => simp at hmem
  | tokenError e hTok => simp at hmem
  | passwordError token e hTok hPw =>
    simp only [runTokens_trace, runCredentials_trace, Run.trace_done, List.mem_cons,
      List.mem_append, List.not_mem_nil, or_false] at hmem
    rcases hmem with h | h | h | h | h
    · cases h
    · cases h
    · exact absurd (stage_of_mem_usernameEffects h) (fun h => Stage.noConfusion h)
    · cases h
    · cases h
  | samlError token pass e hTok hPw hSaml =>
    simp only [runTokens_trace, runCredentials_trace, runSaml_trace, Run.trace_done,
      List.mem_cons, List.mem_append, List.not_mem_nil, or_false] at hmem
    rcases hmem with h | h | h | h | h | h | h
    · cases h
    · cases h
    · exact absurd (stage_of_mem_usernameEffects h) (fun h => Stage.noConfusion h)
    · cases h
    · cases h
    · cases h
    · cases h
      exact ⟨pass, _, rfl, rfl, rfl, Or.inl ⟨e, rfl, rfl⟩⟩
  | noData token pass rSaml hTok hPw hSaml hData =>
    simp only [runTokens_trace, runCredentials_trace, runSaml_trace, Run.trace_done,
      List.mem_cons, List.mem_append, List.not_mem_nil, or_false] at hmem
    rcases hmem with h | h | h | h | h | h | h
    · cases h
    · cases h
    · exact absurd (stage_of_mem_usernameEffects h) (fun h => Stage.noConfusion h)
    · cases h
    · cases h
    · cases h
    · cases h
      exact ⟨pass, _, rfl, rfl, rfl, Or.inr (Or.inl ⟨rSaml, rfl, hData, rfl⟩)⟩
  | challenge token pass rSaml data0 rest tail hTok hPw hSaml hData hTail =>
    simp only [runTokens_trace, runCredentials_trace, runSaml_trace, List.mem_cons,
      List.mem_append] at hmem
    rcases hmem with h | h | h | h | h | h | h | h
    · cases h
    · cases h
    · exact absurd (stage_of_mem_usernameEffects h) (fun h => Stage.noConfusion h)
    · cases h
    · cases h
    · cases h
    · cases h
      exact ⟨pass, _, rfl, rfl, rfl, Or.inr (Or.inr ⟨rSaml, data0, rest, rfl, hData, hTail⟩)⟩
    · rcases hTail.stage_late h with h | h | h | h <;> exact Stage.noConfusion h

/-- A run whose trace holds an answered assertion request is one of the two
shapes that get past the request. -/
theorem GetRun.of_assertion {w : World} {app : String} {run : Run} (hrun : GetRun w app run)
    {url tok : String} {p : GenerateSamlAssertionParams} {r : GenerateSamlAssertionResponse}
    (hmem : Effect.GenerateSamlAssertion url tok p (Result.ok r) ∈ run.trace) :
    ∃ pass tail,
      run = runTokens w (Result.ok tok) (runCredentials w (Result.ok pass)
        (runSaml w app tok pass (Result.ok r) tail)) ∧
      url = w.GenerateSamlAssertionUrl ∧ p = samlParams w app pass ∧
      ((r.Data = [] ∧ tail = Run.done (Outcome.panicked (Panic.indexOutOfRange 0 0))) ∨
       ∃ data0 rest, r.Data = data0 :: rest ∧ MfaRun w app tok data0 tail) := by
  obtain ⟨pass, tail, h1, h2, h3, h4⟩ := hrun.of_assertion_request hmem
  refine ⟨pass, tail, h1, h2, h3, ?_⟩
  rcases h4 with ⟨e, he, -⟩ | ⟨r', hr, hd, ht⟩ | ⟨r', data0, rest, hr, hd, ht⟩
  · cases he
  · cases hr
    exact Or.inl ⟨hd, ht⟩
  · cases hr
    exact Or.inr ⟨data0, rest, hd, ht⟩

/-- Only the factor verification carries `VerifyFactor` parameters. -/
theorem verifyFactorParams_of_stage {ev : Effect} (h : ev.stage ≠ Stage.factorVerification) :
    ev.verifyFactorParams = none := by
  cases ev <;> first | rfl | exact absurd rfl h

/-- A list without effect of the factor verification holds no `VerifyFactor` call. -/
theorem verifyFactorCalls_eq_nil {l : List Effect}
    (h : ∀ ev ∈ l, ev.stage ≠ Stage.factorVerification) : verifyFactorCalls l = [] := by
  unfold verifyFactorCalls
  rw [List.filterMap_eq_nil_iff]
  exact fun ev hev => verifyFactorParams_of_stage (h ev hev)

/-- The calls of two lists put together. -/
theorem verifyFactorCalls_append (l m : List Effect) :
    verifyFactorCalls (l ++ m) = verifyFactorCalls l ++ verifyFactorCalls m := by
  unfold verifyFactorCalls
  exact List.filterMap_append _ _ _

/-- There is no `VerifyFactor` call before the assertion request. -/
theorem verifyFactorCalls_assertionLead (w : World) (r1 r2 : Result String) :
    verifyFactorCalls (Effect.logGeneratingTokens ::
        Effect.GenerateTokens w.GenerateTokensUrl (w.viper "providers.onelogin.clientId")
          (w.viper "providers.onelogin.clientSecret") r1 ::
        (usernameEffects w ++ [Effect.promptPassword, Effect.GetPasswd r2,
          Effect.logGeneratingSaml])) = [] := by
  apply verifyFactorCalls_eq_nil
  intro ev hev
  rcases stage_of_mem_assertionLead hev with h | h | h | rfl
  · rw [h]; exact fun h => Stage.noConfusion h
  · rw [h]; exact fun h => Stage.noConfusion h
  · rw [h]; exact fun h => Stage.noConfusion h
  · exact fun h => Stage.noConfusion h

/-- There is no `VerifyFactor` call in the device menu. -/
theorem verifyFactorCalls_menuEffects (w : World) (ds : List Device) :
    verifyFactorCalls (menuEffects w ds) = [] := by
  apply verifyFactorCalls_eq_nil
  intro ev hev
  rw [stage_of_mem_menuEffects hev]
  exact fun h => Stage.noConfusion h

/-- There is no `VerifyFactor` call in the last stage. -/
theorem RoleRun.no_verifyFactor {w : World} {app a : String} {tail : Run}
    (h : RoleRun w app a tail) : Clisso.verifyFactorCalls tail.trace = [] := by
  apply verifyFactorCalls_eq_nil
  intro ev hev
  rw [h.stage_role hev]
  exact fun h => Stage.noConfusion h

/-- The calls of a list, by its first effect. -/
theorem verifyFactorCalls_cons (ev : Effect) (l : List Effect) :
    verifyFactorCalls (ev :: l) =
      match ev.verifyFactorParams with
      | some p => p :: verifyFactorCalls l
      | none => verifyFactorCalls l := by
  unfold verifyFactorCalls
  rw [List.filterMap_cons]
  cases ev.verifyFactorParams <;> rfl

/-- The empty trace holds no call. -/
theorem verifyFactorCalls_nil : verifyFactorCalls [] = [] := rfl

/-- An effect of a run belongs to one of the first four stages, or the run got
an assertion response with a `Data[0]` and the effect comes after it. -/
theorem GetRun.mem_cases {w : World} {app : String} {run : Run} (hrun : GetRun w app run)
    {ev : Effect} (hmem : ev ∈ run.trace) :
    (ev.stage = Stage.tokenAcquisition ∨ ev.stage = Stage.usernamePrompt ∨
      ev.stage = Stage.passwordPrompt ∨ ev.stage = Stage.assertionRequest) ∨
    ∃ token pass rSaml data0 rest tail,
      run = runTokens w (Result.ok token) (runCredentials w (Result.ok pass)
        (runSaml w app token pass (Result.ok rSaml) tail)) ∧
      rSaml.Data = data0 :: rest ∧ MfaRun w app token data0 tail ∧ ev ∈ tail.trace := by
  cases hrun with
  | configError e => simp at hmem
  | tokenError e hTok =>
    simp only [runTokens_trace, Run.trace_done, List.mem_cons, List.not_mem_nil, or_false] at hmem
    rcases hmem with rfl | rfl <;> exact Or.inl (Or.inl rfl)
  | passwordError token e hTok hPw =>
    simp only [runTokens_trace, runCredentials_trace, Run.trace_done, List.mem_cons,
      List.mem_append, List.not_mem_nil, or_false] at hmem
    rcases hmem with rfl | rfl | h | rfl | rfl
    · exact Or.inl (Or.inl rfl)
    · exact Or.inl (Or.inl rfl)
    · exact Or.inl (Or.inr (Or.inl (stage_of_mem_usernameEffects h)))
    · exact Or.inl (Or.inr (Or.inr (Or.inl rfl)))
    · exact Or.inl (Or.inr (Or.inr (Or.inl rfl)))
  | samlError token pass e hTok hPw hSaml =>
    simp only [runTokens_trace, runCredentials_trace, runSaml_trace, Run.trace_done,
      List.mem_cons, List.mem_append, List.not_mem_nil, or_false] at hmem
    rcases hmem with rfl | rfl | h | rfl | rfl | rfl | rfl
    · exact Or.inl (Or.inl rfl)
    · exact Or.inl (Or.inl rfl)
    · exact Or.inl (Or.inr (Or.inl (stage_of_mem_usernameEffects h)))
    · exact Or.inl (Or.inr (Or.inr (Or.inl rfl)))
    · exact Or.inl (Or.inr (Or.inr (Or.inl rfl)))
    · exact Or.inl (Or.inr (Or.inr (Or.inr rfl)))
    · exact Or.inl (Or.inr (Or.inr (Or.inr rfl)))
  | noData token pass rSaml hTok hPw hSaml hData =>
    simp only [runTokens_trace, runCredentials_trace, runSaml_trace, Run.trace_done,
      List.mem_cons, List.mem_append, List.not_mem_nil, or_false] at hmem
    rcases hmem with rfl | rfl | h | rfl | rfl | rfl | rfl
    · exact Or.inl (Or.inl rfl)
    · exact Or.inl (Or.inl rfl)
    · exact Or.inl (Or.inr (Or.inl (stage_of_mem_usernameEffects h)))
    · exact Or.inl (Or.inr (Or.inr (Or.inl rfl)))
    · exact Or.inl (Or.inr (Or.inr (Or.inl rfl)))
    · exact Or.inl (Or.inr (Or.inr (Or.inr rfl)))
    · exact Or.inl (Or.inr (Or.inr (Or.inr rfl)))
  | challenge token pass rSaml data0 rest tail hTok hPw hSaml hData hTail =>
    simp only [runTokens_trace, runCredentials_trace, runSaml_trace, List.mem_cons,
      List.mem_append] at hmem
    rcases hmem with rfl | rfl | h | rfl | rfl | rfl | rfl | h
    · exact Or.inl (Or.inl rfl)
    · exact Or.inl (Or.inl rfl)
    · exact Or.inl (Or.inr (Or.inl (stage_of_mem_usernameEffects h)))
    · exact Or.inl (Or.inr (Or.inr (Or.inl rfl)))
    · exact Or.inl (Or.inr (Or.inr (Or.inl rfl)))
    · exact Or.inl (Or.inr (Or.inr (Or.inr rfl)))
    · exact Or.inl (Or.inr (Or.inr (Or.inr rfl)))
    · exact Or.inr ⟨token, pass, rSaml, data0, rest, tail, rfl, hData, hTail, h⟩

/-- A run whose trace holds a `VerifyFactor` call got an assertion response with
a `Data[0]`, selected a device of it and called `VerifyFactor` for it. -/
theorem GetRun.of_verify {w : World} {app : String} {run : Run} (hrun : GetRun w app run)
    {url tok : String} {p : VerifyFactorParams} {res : Result VerifyFactorResponse}
    (hmem : Effect.VerifyFactor url tok p res ∈ run.trace) :
    ∃ pass rSaml data0 rest device tail,
      run = runTokens w (Result.ok tok) (runCredentials w (Result.ok pass)
        (runSaml w app tok pass (Result.ok rSaml) (runMenu w data0.Devices
          (runVerify w app tok data0.StateToken device res tail)))) ∧
      rSaml.Data = data0 :: rest ∧
      index data0.Devices (deviceIndex w data0.Devices) = some device ∧
      url = w.VerifyFactorUrl ∧ p = mfaParams w app data0.StateToken device ∧
      ((∃ e, res = Result.err e ∧ tail = Run.done (Outcome.returned none (some e))) ∨
       ∃ rMfa, res = Result.ok rMfa ∧ RoleRun w app rMfa.Data tail) := by
  rcases hrun.mem_cases hmem with h | ⟨token, pass, rSaml, data0, rest, tail, rfl, hData, hTail, h⟩
  · rcases h with h | h | h | h <;> exact Stage.noConfusion h
  cases hTail with
  | noDevice hDev =>
    simp only [runMenu_trace, Run.trace_done, List.append_nil] at h
    exact Stage.noConfusion (stage_of_mem_menuEffects h)
  | verifyError device e hDev hMfa =>
    simp only [runMenu_trace, runVerify_trace, Run.trace_done, List.mem_append, List.mem_cons,
      List.not_mem_nil, or_false] at h
    rcases h with h | h | h | h
    · exact Stage.noConfusion (stage_of_mem_menuEffects h)
    · cases h
    · cases h
    · cases h
      exact ⟨pass, rSaml, data0, rest, device, _, rfl, hData, hDev, rfl, rfl,
        Or.inl ⟨e, rfl, rfl⟩⟩
  | verified device rMfa tail2 hDev hMfa hTail2 =>
    simp only [runMenu_trace, runVerify_trace, List.mem_append, List.mem_cons] at h
    rcases h with h | h | h | h | h
    · exact Stage.noConfusion (stage_of_mem_menuEffects h)
    · cases h
    · cases h
    · cases h
      exact ⟨pass, rSaml, data0, rest, device, _, rfl, hData, hDev, rfl, rfl,
        Or.inr ⟨rMfa, rfl, hTail2⟩⟩
    · exact Stage.noConfusion (hTail2.stage_role h)

/-! ## The order of the effects -/

/-- The script written out. -/
theorem script_eq (u : Bool) (n : Nat) :
    script u n =
      [Step.logGeneratingTokens, Step.GenerateTokens] ++
      ((if u then [] else [Step.promptUsername, Step.scanlnUser]) ++
      ([Step.promptPassword, Step.GetPasswd, Step.logGeneratingSaml,
          Step.GenerateSamlAssertion] ++
      ((if n > 1 then stageSteps n Stage.deviceMenu else []) ++
      [Step.promptOtp, Step.scanlnOtp, Step.VerifyFactor, Step.NewSession,
        Step.AssumeRoleWithSAML]))) := by
  cases u <;> by_cases h : n > 1 <;> simp [script, stageSequence, stageSteps, h]

/-- The statements of the menu lines. -/
theorem map_step_printDevices (i : Nat) (ds : List Device) :
    (printDevices i ds).map Effect.step =
      (List.range ds.length).map (fun j => Step.printfDevice (i + j + 1)) := by
  induction ds generalizing i with
  | nil => rfl
  | cons d ds ih =>
    simp only [printDevices, List.map_cons, List.length_cons, List.range_succ_eq_map,
      List.map_map, ih]
    refine congrArg₂ _ rfl (List.map_congr_left fun j _ => ?_)
    simp only [Function.comp]
    congr 1
    omega

/-- The statements of the device menu are those of its stage. -/
theorem map_step_menuEffects (w : World) (ds : List Device) :
    (menuEffects w ds).map Effect.step =
      if ds.length > 1 then stageSteps ds.length Stage.deviceMenu else [] := by
  unfold menuEffects
  split_ifs
  · simp [map_step_printDevices, stageSteps, Effect.step]
  · rfl

/-- The statements of the username prompt are those of its stage. -/
theorem map_step_usernameEffects (w : World) :
    (usernameEffects w).map Effect.step =
      if decide (w.viper "providers.onelogin.username" ≠ "") then []
      else [Step.promptUsername, Step.scanlnUser] := by
  unfold usernameEffects
  by_cases h : w.viper "providers.onelogin.username" = "" <;> simp [h, Effect.step]

/-- Effects that are no assertion request do not change the devices on offer. -/
theorem offeredDevices_append_cons {pre : List Effect}
    (hpre : ∀ ev ∈ pre, ev.step ≠ Step.GenerateSamlAssertion) (url token : String)
    (p : GenerateSamlAssertionParams) (res : Result GenerateSamlAssertionResponse)
    (rest : List Effect) :
    offeredDevices (pre ++ Effect.GenerateSamlAssertion url token p res :: rest) =
      offeredDevices (Effect.GenerateSamlAssertion url token p res :: rest) := by
  induction pre with
  | nil => rfl
  | cons a pre ih =>
    have ha := hpre a (List.mem_cons_self _ _)
    have ih' := ih (fun ev hev => hpre ev (List.mem_cons_of_mem _ hev))
    cases a <;> first | exact ih' | exact absurd rfl ha

/-- Without an assertion request no device is on offer. -/
theorem offeredDevices_eq_nil {l : List Effect}
    (h : ∀ ev ∈ l, ev.step ≠ Step.GenerateSamlAssertion) : offeredDevices l = [] := by
  induction l with
  | nil => rfl
  | cons a l ih =>
    have ha := h a (List.mem_cons_self _ _)
    have ih' := ih (fun ev hev => h ev (List.mem_cons_of_mem _ hev))
    cases a <;> first | exact ih' | exact absurd rfl ha

/-- The statements of the last stage are an initial segment of its two statements. -/
theorem RoleRun.role_steps {w : World} {app a : String} {tail : Run}
    (h : RoleRun w app a tail) :
    tail.trace.map Effect.step <+: [Step.NewSession, Step.AssumeRoleWithSAML] := by
  cases h <;> simp [Effect.step]

/-- The statements after the assertion response are an initial segment of the rest of the script. -/
theorem MfaRun.mfa_steps {w : World} {app token : String} {data0 : SamlData} {tail : Run}
    (h : MfaRun w app token data0 tail) :
    tail.trace.map Effect.step <+:
      (if data0.Devices.length > 1 then stageSteps data0.Devices.length Stage.deviceMenu
        else []) ++
      [Step.promptOtp, Step.scanlnOtp, Step.VerifyFactor, Step.NewSession,
        Step.AssumeRoleWithSAML] := by
  cases h with
  | noDevice hDev =>
    simp only [runMenu_trace, Run.trace_done, List.append_nil, map_step_menuEffects]
    exact List.prefix_append _ _
  | verifyError device e hDev hMfa =>
    simp only [runMenu_trace, runVerify_trace, Run.trace_done, List.map_append,
      map_step_menuEffects, List.map_cons, List.map_nil, Effect.step]
    rw [List.prefix_append_right_inj]
    exact ⟨[Step.NewSession, Step.AssumeRoleWithSAML], rfl⟩
  | verified device rMfa tail2 hDev hMfa hTail2 =>
    simp only [runMenu_trace, runVerify_trace, List.map_append,
      map_step_menuEffects, List.map_cons, Effect.step]
    rw [List.prefix_append_right_inj]
    exact (List.prefix_append_right_inj [_, _, _]).mpr hTail2.role_steps

/-- Of two initial segments of one list, the one that ends in an element the other lacks holds the last element of the other before it. -/
theorem mem_of_two_initial {α : Type} {s l A p q : List α} {g x : α}
    (hl : l <+: s) (hA : A ++ [g] <+: s) (hsplit : l = p ++ x :: q) (hx : x ∉ A ++ [g]) :
    g ∈ p := by
  have hpx : p ++ [x] <+: s := by
    refine List.IsPrefix.trans ?_ hl
    rw [hsplit]
    exact ⟨q, by simp⟩
  rcases List.prefix_or_prefix_of_prefix hpx hA with h | h
  · exact absurd (h.subset (List.mem_append_right _ (List.mem_singleton_self x))) hx
  · have hg : g ∈ p ++ [x] := h.subset (List.mem_append_right _ (List.mem_singleton_self g))
    rcases List.mem_append.mp hg with hg | hg
    · exact hg
    · rw [List.mem_singleton] at hg
      subst hg
      exact absurd (List.mem_append_right _ (List.mem_singleton_self g)) hx

/-- Nothing follows, in an initial segment, the element that ends the list and occurs nowhere else in it. -/
theorem nil_of_prefix_of_last {α : Type} {s l S p q : List α} {z : α}
    (hl : l <+: s) (hs : s = S ++ [z]) (hsplit : l = p ++ z :: q) (hz : z ∉ S) : q = [] := by
  have hpz : p ++ [z] <+: s := by
    refine List.IsPrefix.trans ?_ hl
    rw [hsplit]
    exact ⟨q, by simp⟩
  have hS : S <+: s := by
    rw [hs]
    exact List.prefix_append _ _
  have hlen : S.length ≤ p.length := by
    by_contra hlt
    have hle : (p ++ [z]).length ≤ S.length := by
      simp only [List.length_append, List.length_singleton]
      omega
    have := List.prefix_of_prefix_length_le hpz hS hle
    exact hz (this.subset (List.mem_append_right _ (List.mem_singleton_self z)))
  have h1 := hl.length_le
  rw [hsplit, hs] at h1
  simp only [List.length_append, List.length_cons, List.length_singleton, List.length_nil] at h1
  exact List.length_eq_zero.mp (by omega)

/-- A statement among those of a list is the statement of one of its effects. -/
theorem exists_mem_of_mem_map_step {pre : List Effect} {g : Step}
    (h : g ∈ pre.map Effect.step) : ∃ a ∈ pre, a.step = g := by
  obtain ⟨a, ha, hg⟩ := List.mem_map.mp h
  exact ⟨a, ha, hg⟩

/-- The statements of a split trace. -/
theorem map_step_split {T pre post : List Effect} {ev : Effect} (h : T = pre ++ ev :: post) :
    T.map Effect.step = pre.map Effect.step ++ ev.step :: post.map Effect.step := by
  rw [h]
  simp

/-- No statement occurs twice in the script. -/
theorem script_nodup (u : Bool) (n : Nat) : (script u n).Nodup := by
  have hinj : Function.Injective (fun i : Nat => Step.printfDevice (i + 1)) := by
    intro a b h
    simpa using h
  have hmenu : ((List.range n).map (fun i => Step.printfDevice (i + 1))).Nodup :=
    (List.nodup_range n).map hinj
  rw [script_eq]
  cases u <;> by_cases h : n > 1 <;>
    simp [h, stageSteps, List.nodup_append, List.nodup_cons, hmenu]

/-- No stage occurs twice in the sequence of stages. -/
theorem stageSequence_nodup (u : Bool) (n : Nat) : (stageSequence u n).Nodup := by
  cases u <;> by_cases h : n > 1 <;> simp [stageSequence, h]

/-- The statements of a run are an initial segment of the script. -/
theorem Get_steps_initial (w : World) (app : String) :
    (Get w app).trace.map Effect.step <+:
      script (decide (w.viper "providers.onelogin.username" ≠ ""))
        (offeredDevices (Get w app).trace).length := by
  have hrun := Get_run w app
  generalize Get w app = run at hrun ⊢
  rw [script_eq]
  cases hrun with
  | configError e => exact List.nil_prefix
  | tokenError e hTok =>
    simp only [runTokens_trace, Run.trace_done, List.map_cons, List.map_nil, Effect.step]
    exact List.prefix_append _ _
  | passwordError token e hTok hPw =>
    simp only [runTokens_trace, runCredentials_trace, Run.trace_done, List.map_cons,
      List.map_nil, List.map_append, Effect.step, map_step_usernameEffects]
    refine (List.prefix_append_right_inj [_, _]).mpr ((List.prefix_append_right_inj _).mpr ?_)
    exact ⟨_, rfl⟩
  | samlError token pass e hTok hPw hSaml =>
    simp only [runTokens_trace, runCredentials_trace, runSaml_trace, Run.trace_done,
      List.map_cons, List.map_nil, List.map_append, Effect.step, map_step_usernameEffects]
    refine (List.prefix_append_right_inj [_, _]).mpr ((List.prefix_append_right_inj _).mpr ?_)
    exact List.prefix_append _ _
  | noData token pass rSaml hTok hPw hSaml hData =>
    simp only [runTokens_trace, runCredentials_trace, runSaml_trace, Run.trace_done,
      List.map_cons, List.map_nil, List.map_append, Effect.step, map_step_usernameEffects]
    refine (List.prefix_append_right_inj [_, _]).mpr ((List.prefix_append_right_inj _).mpr ?_)
    exact List.prefix_append _ _
  | challenge token pass rSaml data0 rest tail hTok hPw hSaml hData hTail =>
    have hn : offeredDevices (runTokens w (Result.ok token) (runCredentials w (Result.ok pass)
        (runSaml w app token pass (Result.ok rSaml) tail))).trace = data0.Devices := by
      rw [assertion_trace,
        offeredDevices_append_cons (fun ev hev => step_of_mem_assertionLead hev)]
      simp only [offeredDevices, hData]
    rw [hn]
    simp only [runTokens_trace, runCredentials_trace, runSaml_trace,
      List.map_cons, List.map_append, Effect.step, map_step_usernameEffects]
    refine (List.prefix_append_right_inj [_, _]).mpr ((List.prefix_append_right_inj _).mpr ?_)
    exact (List.prefix_append_right_inj [_, _, _, _]).mpr hTail.mfa_steps

/-! # The claims -/

/-! ## Configuration errors come first (C1) -/

/-- C1: when one of the six required settings read by `Get` is empty, `Get`
returns an error and no credentials, and its trace is empty: nothing was
logged, prompted or requested. -/
theorem Get_missing_setting (w : World) (app : String)
    (h : w.viper "providers.onelogin.clientSecret" = "" ∨
         w.viper "providers.onelogin.clientId" = "" ∨
         w.viper "providers.onelogin.subdomain" = "" ∨
         w.viper ("apps." ++ app ++ ".appId") = "" ∨
         w.viper ("apps." ++ app ++ ".principalArn") = "" ∨
         w.viper ("apps." ++ app ++ ".roleArn") = "") :
    ∃ e, Get w app = { trace := [], outcome := Outcome.returned none (some e) } := by
  unfold Get
  by_cases h1 : w.viper "providers.onelogin.clientSecret" = ""
  · exact ⟨_, by rw [if_pos h1]; rfl⟩
  by_cases h2 : w.viper "providers.onelogin.clientId" = ""
  · exact ⟨_, by rw [if_neg h1, if_pos h2]; rfl⟩
  by_cases h3 : w.viper "providers.onelogin.subdomain" = ""
  · exact ⟨_, by rw [if_neg h1, if_neg h2, if_pos h3]; rfl⟩
  by_cases h4 : w.viper ("apps." ++ app ++ ".appId") = ""
  · exact ⟨_, by rw [if_neg h1, if_neg h2, if_neg h3, if_pos h4]; rfl⟩
  by_cases h5 : w.viper ("apps." ++ app ++ ".principalArn") = ""
  · exact ⟨_, by rw [if_neg h1, if_neg h2, if_neg h3, if_neg h4, if_pos h5]; rfl⟩
  by_cases h6 : w.viper ("apps." ++ app ++ ".roleArn") = ""
  · exact ⟨_, by rw [if_neg h1, if_neg h2, if_neg h3, if_neg h4, if_neg h5, if_pos h6]; rfl⟩
  · exact absurd h (by simp [h1, h2, h3, h4, h5, h6])

/-- C1, at a concrete input: in `worldNoRoleArn` every setting is present but the
role of app `dev`; `Get` returns an error, no credentials, and has no effect. -/
theorem Get_missing_setting_witness :
    worldNoRoleArn.viper ("apps." ++ "dev" ++ ".roleArn") = "" ∧
    ∃ e, Get worldNoRoleArn "dev" =
      { trace := [], outcome := Outcome.returned none (some e) } :=
  ⟨by decide,
   Get_missing_setting worldNoRoleArn "dev"
    (Or.inr (Or.inr (Or.inr (Or.inr (Or.inr (by decide))))))⟩

/-! ## The first failure ends the run (C2) -/

/-- C2: when a network stage of `Get` (token acquisition, SAML assertion
generation, factor verification, role assumption) is answered with error `e`,
`Get` returns exactly `e` and no credentials, and that call is the last effect
of the run: no later stage is invoked.  In particular, when it is
`GenerateTokens` that fails, the run consists of the log line and that call. -/
theorem Get_first_network_failure (w : World) (app : String) (ev : Effect) (e : Error)
    (hmem : ev ∈ (Get w app).trace) (hfail : ev.networkFailure = some e) :
    (Get w app).outcome = Outcome.returned none (some e) ∧
    (Get w app).trace.getLast? = some ev ∧
    (∀ url id secret, ev = Effect.GenerateTokens url id secret (Result.err e) →
      (Get w app).trace = [Effect.logGeneratingTokens, ev]) := by
  have hrun := Get_run w app
  revert hmem
  generalize Get w app = run at hrun ⊢
  intro hmem
  cases hrun with
  | configError e' => simp at hmem
  | tokenError e' hTok =>
    simp only [runTokens_trace, Run.trace_done, List.mem_cons, List.not_mem_nil, or_false] at hmem
    rcases hmem with rfl | rfl
    · cases hfail
    · simp only [Effect.networkFailure, Option.some.injEq] at hfail
      subst hfail
      exact ⟨rfl, rfl, fun _ _ _ _ => rfl⟩
  | passwordError token e' hTok hPw =>
    simp only [runTokens_trace, runCredentials_trace, Run.trace_done, List.mem_cons,
      List.mem_append, List.not_mem_nil, or_false] at hmem
    rcases hmem with rfl | rfl | hmem | rfl | rfl
    · cases hfail
    · cases hfail
    · rw [networkFailure_of_usernamePrompt (stage_of_mem_usernameEffects hmem)] at hfail
      cases hfail
    · cases hfail
    · cases hfail
  | samlError token pass e' hTok hPw hSaml =>
    simp only [runTokens_trace, runCredentials_trace, runSaml_trace, Run.trace_done,
      List.mem_cons, List.mem_append, List.not_mem_nil, or_false] at hmem
    rcases hmem with rfl | rfl | hmem | rfl | rfl | rfl | rfl
    · cases hfail
    · cases hfail
    · rw [networkFailure_of_usernamePrompt (stage_of_mem_usernameEffects hmem)] at hfail
      cases hfail
    · cases hfail
    · cases hfail
    · cases hfail
    · simp only [Effect.networkFailure, Option.some.injEq] at hfail
      subst hfail
      refine ⟨rfl, ?_, fun _ _ _ h => Effect.noConfusion h⟩
      simp only [runTokens_trace, runCredentials_trace, runSaml_trace, Run.trace_done]
      exact getLast?_append_of_getLast? (l := [_, _])
        (getLast?_append_of_getLast? (t := [_, _, _, _]) rfl)
  | noData token pass rSaml hTok hPw hSaml hData =>
    simp only [runTokens_trace, runCredentials_trace, runSaml_trace, Run.trace_done,
      List.mem_cons, List.mem_append, List.not_mem_nil, or_false] at hmem
    rcases hmem with rfl | rfl | hmem | rfl | rfl | rfl | rfl
    · cases hfail
    · cases hfail
    · rw [networkFailure_of_usernamePrompt (stage_of_mem_usernameEffects hmem)] at hfail
      cases hfail
    · cases hfail
    · cases hfail
    · cases hfail
    · cases hfail
  | challenge token pass rSaml data0 rest tail hTok hPw hSaml hData hTail =>
    simp only [runTokens_trace, runCredentials_trace, runSaml_trace, List.mem_cons,
      List.mem_append] at hmem
    rcases hmem with rfl | rfl | hmem | rfl | rfl | rfl | rfl | hmem
    · cases hfail
    · cases hfail
    · rw [networkFailure_of_usernamePrompt (stage_of_mem_usernameEffects hmem)] at hfail
      cases hfail
    · cases hfail
    · cases hfail
    · cases hfail
    · cases hfail
    · obtain ⟨h1, h2⟩ := hTail.mfa_failure hmem hfail
      refine ⟨h1, ?_, ?_⟩
      · simp only [runTokens_trace, runCredentials_trace, runSaml_trace]
        exact getLast?_append_of_getLast? (l := [_, _])
          (getLast?_append_of_getLast? (getLast?_append_of_getLast? (l := [_, _, _, _]) h2))
      · intro url id secret hev
        have hst := hTail.stage_late hmem
        rw [hev] at hst
        simp [Effect.stage, Effect.step, Step.stage] at hst

/-- C2, at a concrete input (scenario B of the spec): the token service answers
"401 Unauthorized"; `Get` returns that error and makes no further call. -/
theorem Get_first_network_failure_witness :
    Effect.GenerateTokens "https://idp.example/token" "id1" "sec1"
        (Result.err ⟨"401 Unauthorized"⟩) ∈ (Get worldTokenError "dev").trace ∧
    (Get worldTokenError "dev").outcome = Outcome.returned none (some ⟨"401 Unauthorized"⟩) ∧
    (Get worldTokenError "dev").trace =
      [Effect.logGeneratingTokens,
       Effect.GenerateTokens "https://idp.example/token" "id1" "sec1"
        (Result.err ⟨"401 Unauthorized"⟩)] :=
  ⟨by decide,
   (Get_first_network_failure worldTokenError "dev"
      (Effect.GenerateTokens "https://idp.example/token" "id1" "sec1"
        (Result.err ⟨"401 Unauthorized"⟩)) ⟨"401 Unauthorized"⟩ (by decide) rfl).1,
   (Get_first_network_failure worldTokenError "dev"
      (Effect.GenerateTokens "https://idp.example/token" "id1" "sec1"
        (Result.err ⟨"401 Unauthorized"⟩)) ⟨"401 Unauthorized"⟩ (by decide) rfl).2.2
      _ _ _ rfl⟩

/-! ## The credentials returned (C3) -/

/-- C3: in a run in which the role-assumption call was made and answered with
the four fields (so that every earlier stage succeeded), `Get` returns no error
and credentials whose `AccessKeyId`, `SecretAccessKey`, `SessionToken` and
`Expiration` are those four fields. -/
theorem Get_success_credentials (w : World) (app : String) (inp : AssumeRoleWithSAMLInput)
    (keyId secretKey sessionToken : String) (expiration : Time)
    (h : Effect.AssumeRoleWithSAML inp
        (Result.ok ⟨some ⟨some keyId, some secretKey, some sessionToken, some expiration⟩⟩)
      ∈ (Get w app).trace) :
    (Get w app).outcome =
      Outcome.returned (some ⟨keyId, secretKey, sessionToken, expiration⟩) none := by
  have hrun := Get_run w app
  revert h
  generalize Get w app = run at hrun ⊢
  intro h
  rcases hrun.mem_cases h with
    hst | ⟨token, pass, rSaml, data0, rest, tail, rfl, hData, hTail, hmem⟩
  · rcases hst with hst | hst | hst | hst <;> exact Stage.noConfusion hst
  simp only [runTokens_outcome, runCredentials_outcome, runSaml_outcome]
  cases hTail with
  | noDevice hDev =>
    simp only [runMenu_trace, Run.trace_done, List.append_nil] at hmem
    exact Stage.noConfusion (stage_of_mem_menuEffects hmem)
  | verifyError device e hDev hMfa =>
    simp only [runMenu_trace, runVerify_trace, Run.trace_done, List.mem_append, List.mem_cons,
      List.not_mem_nil, or_false] at hmem
    rcases hmem with hmem | hmem | hmem | hmem
    · exact Stage.noConfusion (stage_of_mem_menuEffects hmem)
    · cases hmem
    · cases hmem
    · cases hmem
  | verified device rMfa tail2 hDev hMfa hTail2 =>
    simp only [runMenu_trace, runVerify_trace, List.mem_append, List.mem_cons] at hmem
    simp only [runMenu_outcome, runVerify_outcome]
    rcases hmem with hmem | hmem | hmem | hmem | hmem
    · exact Stage.noConfusion (stage_of_mem_menuEffects hmem)
    · cases hmem
    · cases hmem
    · cases hmem
    · cases hTail2 with
      | sessionError e hSess =>
        simp only [runSession_trace, Run.trace_done, List.mem_cons, List.not_mem_nil,
          or_false] at hmem
        cases hmem
      | assumeError e hSess hRole =>
        simp only [runSession_trace, runAssume_trace, Run.trace_done, List.mem_cons,
          List.not_mem_nil, or_false] at hmem
        rcases hmem with hmem | hmem <;> cases hmem
      | nilField resp hSess hRole hNil =>
        simp only [runSession_trace, runAssume_trace, Run.trace_done, List.mem_cons,
          List.not_mem_nil, or_false] at hmem
        rcases hmem with hmem | hmem
        · cases hmem
        · cases hmem
          exact absurd rfl (hNil _ _ _ _)
      | success resp k s t x hSess hRole hCreds =>
        simp only [runSession_trace, runAssume_trace, Run.trace_done, List.mem_cons,
          List.not_mem_nil, or_false] at hmem
        rcases hmem with hmem | hmem
        · cases hmem
        · cases hmem
          cases hCreds
          rfl

/-- C3, at a concrete input (scenario A of the spec): a single device, the role
assumption answers AK, SK, ST and an expiration; `Get` returns exactly these. -/
theorem Get_success_credentials_witness :
    Effect.AssumeRoleWithSAML
        { PrincipalArn := "arn:p", RoleArn := "arn:r", SAMLAssertion := "SAMLDATA" }
        (Result.ok ⟨some ⟨some "AK", some "SK", some "ST", some ⟨1700000000⟩⟩⟩)
      ∈ (Get worldOneDevice "dev").trace ∧
    (Get worldOneDevice "dev").outcome =
      Outcome.returned (some ⟨"AK", "SK", "ST", ⟨1700000000⟩⟩) none :=
  ⟨by decide,
   Get_success_credentials worldOneDevice "dev"
    { PrincipalArn := "arn:p", RoleArn := "arn:r", SAMLAssertion := "SAMLDATA" }
    "AK" "SK" "ST" ⟨1700000000⟩ (by decide)⟩

/-! ## No MFA challenge (C4) -/

/-- C4, the claim fails: with a valid configuration and an assertion response
that carries no MFA device, `Get` returns no credentials; it ends in the
index-out-of-range panic of `devices[0]`, right after the assertion request. -/
theorem Get_no_device_panics :
    Get worldNoDevice "dev" =
      { trace :=
          [Effect.logGeneratingTokens,
           Effect.GenerateTokens "https://idp.example/token" "id1" "sec1" (Result.ok "tok"),
           Effect.promptUsername, Effect.scanlnUser "alice",
           Effect.promptPassword, Effect.GetPasswd (Result.ok "pw"),
           Effect.logGeneratingSaml,
           Effect.GenerateSamlAssertion "https://idp.example/saml_assertion" "tok"
             exampleSamlParams (Result.ok (challenge []))],
        outcome := Outcome.panicked (Panic.indexOutOfRange 0 0) } := by
  decide

/-- C4, as amended: when the assertion response carries no MFA device, the
assertion request is the last effect of the run (no factor verification, no role
assumption) and `Get` returns no credentials. -/
theorem Get_no_device_no_credentials (w : World) (app : String) (url tok : String)
    (p : GenerateSamlAssertionParams) (r : GenerateSamlAssertionResponse)
    (hmem : Effect.GenerateSamlAssertion url tok p (Result.ok r) ∈ (Get w app).trace)
    (hnone : ∀ d, r.Data.head? = some d → d.Devices = []) :
    afterAssertion (Get w app).trace = [] ∧
    ∀ c e, (Get w app).outcome ≠ Outcome.returned (some c) e := by
  obtain ⟨pass, tail, hrun, -, -, hcase⟩ := (Get_run w app).of_assertion hmem
  rw [hrun, afterAssertion_assertion_trace]
  simp only [runTokens_outcome, runCredentials_outcome, runSaml_outcome]
  rcases hcase with ⟨-, rfl⟩ | ⟨data0, rest, hData, hTail⟩
  · exact ⟨rfl, fun c e h => Outcome.noConfusion h⟩
  · have hd : data0.Devices = [] := hnone data0 (by rw [hData]; rfl)
    cases hTail with
    | noDevice hDev =>
      refine ⟨?_, fun c e h => Outcome.noConfusion h⟩
      simp [hd, menuEffects]
    | verifyError device e hDev hMfa =>
      rw [hd] at hDev
      simp [index] at hDev
    | verified device rMfa tail2 hDev hMfa hTail2 =>
      rw [hd] at hDev
      simp [index] at hDev

/-- C4 as amended, at a concrete input: the run of `worldNoDevice`. -/
theorem Get_no_device_no_credentials_witness :
    Effect.GenerateSamlAssertion "https://idp.example/saml_assertion" "tok"
        exampleSamlParams (Result.ok (challenge [])) ∈ (Get worldNoDevice "dev").trace ∧
    afterAssertion (Get worldNoDevice "dev").trace = [] ∧
    ∀ c e, (Get worldNoDevice "dev").outcome ≠ Outcome.returned (some c) e :=
  ⟨by decide,
   Get_no_device_no_credentials worldNoDevice "dev" "https://idp.example/saml_assertion" "tok"
    exampleSamlParams (challenge []) (by decide) (fun d h => by cases h; rfl)⟩

/-! ## The device selection (C5, C6, C7) -/

/-- C5, the code at two failing inputs: with two devices on offer, a selection of
3 ends `Get` in the index-out-of-range panic of `devices[selection-1]`, right
after the selection is read; so does an input that leaves `selection` at 0.  No
error is returned to the caller. -/
theorem Get_selection_out_of_range_panics :
    Get worldSelectionThree "dev" =
      { trace :=
          [Effect.logGeneratingTokens,
           Effect.GenerateTokens "https://idp.example/token" "id1" "sec1" (Result.ok "tok"),
           Effect.promptUsername, Effect.scanlnUser "alice",
           Effect.promptPassword, Effect.GetPasswd (Result.ok "pw"),
           Effect.logGeneratingSaml,
           Effect.GenerateSamlAssertion "https://idp.example/saml_assertion" "tok"
             exampleSamlParams (Result.ok (challenge [deviceAuthenticator, deviceYubiKey])),
           Effect.printfDevice 1 11 "Google Authenticator",
           Effect.printfDevice 2 22 "Yubico YubiKey",
           Effect.promptSelection 2, Effect.scanlnSelection 3],
        outcome := Outcome.panicked (Panic.indexOutOfRange 2 2) } ∧
    (Get worldSelectionZero "dev").outcome = Outcome.panicked (Panic.indexOutOfRange (-1) 2) ∧
    (Get worldSelectionZero "dev").trace.getLast? = some (Effect.scanlnSelection 0) := by
  decide

/-- C6: when the assertion response has exactly one MFA device, no effect of the
run belongs to the device menu (no menu line, no selection prompt, no selection
read), and the three effects that follow the assertion request are the OTP
prompt, the OTP read and the `VerifyFactor` call with that device's id. -/
theorem Get_single_device_skips_menu (w : World) (app : String) (url tok : String)
    (p : GenerateSamlAssertionParams) (r : GenerateSamlAssertionResponse) (d : SamlData)
    (dev : Device)
    (hmem : Effect.GenerateSamlAssertion url tok p (Result.ok r) ∈ (Get w app).trace)
    (hd : r.Data.head? = some d) (hone : d.Devices = [dev]) :
    (∀ ev ∈ (Get w app).trace, ev.stage ≠ Stage.deviceMenu) ∧
    (afterAssertion (Get w app).trace).take 3 =
      [Effect.promptOtp, Effect.scanlnOtp w.ScanlnOtp,
       Effect.VerifyFactor w.VerifyFactorUrl tok
         { AppId := w.viper ("apps." ++ app ++ ".appId"), DeviceId := toString dev.DeviceId,
           StateToken := d.StateToken, OtpToken := w.ScanlnOtp }
         (w.VerifyFactor w.VerifyFactorUrl tok
           { AppId := w.viper ("apps." ++ app ++ ".appId"), DeviceId := toString dev.DeviceId,
             StateToken := d.StateToken, OtpToken := w.ScanlnOtp })] := by
  obtain ⟨pass, tail, hrun, -, -, hcase⟩ := (Get_run w app).of_assertion hmem
  rw [hrun, afterAssertion_assertion_trace]
  rcases hcase with ⟨hData, -⟩ | ⟨data0, rest, hData, hTail⟩
  · rw [hData] at hd
    cases hd
  rw [hData] at hd
  cases hd
  have hmenu : menuEffects w d.Devices = [] := by simp [menuEffects, hone]
  have hidx : index d.Devices (deviceIndex w d.Devices) = some dev := by
    simp [index, deviceIndex, hone]
  constructor
  · intro ev hev
    rw [assertion_trace] at hev
    rcases List.mem_append.mp hev with h | h
    · rcases stage_of_mem_assertionLead h with h | h | h | rfl
      · rw [h]; exact fun h => Stage.noConfusion h
      · rw [h]; exact fun h => Stage.noConfusion h
      · rw [h]; exact fun h => Stage.noConfusion h
      · exact fun h => Stage.noConfusion h
    · rcases List.mem_cons.mp h with rfl | h
      · exact fun h => Stage.noConfusion h
      · rcases hTail.mfa_mem_cases h with h | h | h | h
        · rw [hmenu] at h
          cases h
        · rw [h]; exact fun h => Stage.noConfusion h
        · rw [h]; exact fun h => Stage.noConfusion h
        · rw [h]; exact fun h => Stage.noConfusion h
  · cases hTail with
    | noDevice hDev =>
      rw [hidx] at hDev
      cases hDev
    | verifyError device e hDev hMfa =>
      rw [hidx] at hDev
      cases hDev
      simp only [mfaParams] at hMfa
      simp [hmenu, mfaParams, hMfa]
    | verified device rMfa tail2 hDev hMfa hTail2 =>
      rw [hidx] at hDev
      cases hDev
      simp only [mfaParams] at hMfa
      simp [hmenu, mfaParams, hMfa]

/-- C6, at a concrete input (scenario A of the spec): the single device 11. -/
theorem Get_single_device_skips_menu_witness :
    Effect.GenerateSamlAssertion "https://idp.example/saml_assertion" "tok"
        exampleSamlParams (Result.ok (challenge [deviceAuthenticator]))
      ∈ (Get worldOneDevice "dev").trace ∧
    (∀ ev ∈ (Get worldOneDevice "dev").trace, ev.stage ≠ Stage.deviceMenu) ∧
    (afterAssertion (Get worldOneDevice "dev").trace).take 3 =
      [Effect.promptOtp, Effect.scanlnOtp "123456",
       Effect.VerifyFactor "https://idp.example/verify_factor" "tok"
         { AppId := "app1", DeviceId := "11", StateToken := "st1", OtpToken := "123456" }
         (Result.ok { Data := "SAMLDATA" })] :=
  ⟨by decide,
   Get_single_device_skips_menu worldOneDevice "dev" "https://idp.example/saml_assertion" "tok"
    exampleSamlParams (challenge [deviceAuthenticator])
    { StateToken := "st1", Devices := [deviceAuthenticator] } deviceAuthenticator
    (by decide) rfl rfl⟩

/-- C7: with more than one device on offer and an operator selection `k` between
1 and the number of devices, `VerifyFactor` is called exactly once, and the
`DeviceId` it is given is the decimal rendering of the id of the `k`-th device,
counted from 1 in the order of the response. -/
theorem Get_selected_device_id (w : World) (app : String) (url tok : String)
    (p : GenerateSamlAssertionParams) (r : GenerateSamlAssertionResponse) (d : SamlData)
    (k : Int)
    (hmem : Effect.GenerateSamlAssertion url tok p (Result.ok r) ∈ (Get w app).trace)
    (hd : r.Data.head? = some d) (hN : 1 < d.Devices.length)
    (hsel : Effect.scanlnSelection k ∈ (Get w app).trace)
    (h1 : 1 ≤ k) (h2 : k ≤ d.Devices.length) :
    ∃ dev, d.Devices[(k - 1).toNat]? = some dev ∧
      (verifyFactorCalls (Get w app).trace).map VerifyFactorParams.DeviceId
        = [toString dev.DeviceId] := by
  obtain ⟨pass, tail, hrun, -, -, hcase⟩ := (Get_run w app).of_assertion hmem
  rw [hrun] at hsel ⊢
  rcases hcase with ⟨hData, -⟩ | ⟨data0, rest, hData, hTail⟩
  · rw [hData] at hd
    cases hd
  rw [hData] at hd
  cases hd
  -- the selection read in this run is the operator's
  have hk : k = w.ScanlnSelection := by
    rw [assertion_trace] at hsel
    rcases List.mem_append.mp hsel with h | h
    · rcases stage_of_mem_assertionLead h with h | h | h | h
      · exact Stage.noConfusion h
      · exact Stage.noConfusion h
      · exact Stage.noConfusion h
      · cases h
    · rcases List.mem_cons.mp h with h | h
      · cases h
      · rcases hTail.mfa_mem_cases h with h | h | h | h
        · simp only [menuEffects, gt_iff_lt, hN, if_true, List.mem_append, mem_printDevices_iff,
            List.mem_cons, List.not_mem_nil, or_false] at h
          rcases h with ⟨_, _, _, h⟩ | h | h
          · cases h
          · cases h
          · cases h
            rfl
        · exact Stage.noConfusion h
        · exact Stage.noConfusion h
        · exact Stage.noConfusion h
  subst hk
  have hlt : (w.ScanlnSelection - 1).toNat < d.Devices.length := by omega
  have hidx : index d.Devices (deviceIndex w d.Devices)
      = some (d.Devices[(w.ScanlnSelection - 1).toNat]) := by
    have hnn : ¬ (w.ScanlnSelection - 1 < 0) := by omega
    simp only [index, deviceIndex, gt_iff_lt, hN, if_true, hnn, if_false]
    exact List.getElem?_eq_getElem hlt
  refine ⟨d.Devices[(w.ScanlnSelection - 1).toNat], List.getElem?_eq_getElem hlt, ?_⟩
  rw [assertion_trace, verifyFactorCalls_append, verifyFactorCalls_assertionLead]
  cases hTail with
  | noDevice hDev =>
    rw [hidx] at hDev
    cases hDev
  | verifyError device e hDev hMfa =>
    rw [hidx] at hDev
    cases hDev
    simp only [runMenu_trace, runVerify_trace, Run.trace_done, verifyFactorCalls_cons,
      verifyFactorCalls_append, verifyFactorCalls_menuEffects, verifyFactorCalls_nil,
      Effect.verifyFactorParams, List.nil_append, List.map_cons, List.map_nil, mfaParams]
  | verified device rMfa tail2 hDev hMfa hTail2 =>
    rw [hidx] at hDev
    cases hDev
    simp only [runMenu_trace, runVerify_trace, verifyFactorCalls_cons,
      verifyFactorCalls_append, verifyFactorCalls_menuEffects, hTail2.no_verifyFactor,
      Effect.verifyFactorParams, List.nil_append, List.map_cons, List.map_nil, mfaParams]

/-- C7, at a concrete input (scenario C of the spec): two devices, the operator
selects 2, `VerifyFactor` is called with the id of the second device. -/
theorem Get_selected_device_id_witness :
    Effect.scanlnSelection 2 ∈ (Get worldTwoDevices "dev").trace ∧
    (verifyFactorCalls (Get worldTwoDevices "dev").trace).map VerifyFactorParams.DeviceId
      = ["22"] := by
  obtain ⟨dev, hdev, h⟩ := Get_selected_device_id worldTwoDevices "dev"
    "https://idp.example/saml_assertion" "tok" exampleSamlParams
    (challenge [deviceAuthenticator, deviceYubiKey])
    { StateToken := "st1", Devices := [deviceAuthenticator, deviceYubiKey] }
    2 (by decide) rfl (by decide) (by decide) (by decide) (by decide)
  cases hdev
  exact ⟨by decide, h⟩

/-! ## The configuration getters (C8) -/

/-- C8, the part that fails: with application id, principal and role set and the
provider name empty, `GetApp` returns a record, not an error; so it is false that
`GetApp` fails exactly when one of the four fields is empty. -/
theorem GetApp_accepts_empty_provider :
    exampleViper "apps.dev.provider" = "" ∧
    GetApp exampleViper "dev" =
      Result.ok { ID := "app1", PrincipalARN := "arn:p", Provider := "", RoleARN := "arn:r" } ∧
    ¬ ((∃ e, GetApp exampleViper "dev" = Result.err e) ↔
        (exampleViper "apps.dev.appId" = "" ∨ exampleViper "apps.dev.principalArn" = "" ∨
         exampleViper "apps.dev.roleArn" = "" ∨ exampleViper "apps.dev.provider" = "")) := by
  have h : GetApp exampleViper "dev" =
      Result.ok { ID := "app1", PrincipalARN := "arn:p", Provider := "", RoleARN := "arn:r" } := by
    decide
  refine ⟨by decide, h, ?_⟩
  rw [h]
  intro hiff
  obtain ⟨e, he⟩ := hiff.mpr (Or.inr (Or.inr (Or.inr (by decide))))
  cases he

/-- C8, as amended: `GetProvider` returns an error (and no record) exactly when
client secret, client id or subdomain is empty, whatever the username;
`GetApp` returns an error (and no record) exactly when application id, principal
or role is empty, whatever the provider name; otherwise each returns the record
of the values read from the configuration. -/
theorem config_getters_required_fields (viper : String → String) (p app : String) :
    ((( viper ("providers." ++ p ++ ".clientSecret") = "" ∨
        viper ("providers." ++ p ++ ".clientID") = "" ∨
        viper ("providers." ++ p ++ ".subdomain") = "") ∧
       ∃ e, GetProvider viper p = Result.err e) ∨
     (¬ (viper ("providers." ++ p ++ ".clientSecret") = "" ∨
        viper ("providers." ++ p ++ ".clientID") = "" ∨
        viper ("providers." ++ p ++ ".subdomain") = "") ∧
       GetProvider viper p = Result.ok
        { ClientID := viper ("providers." ++ p ++ ".clientID"),
          ClientSecret := viper ("providers." ++ p ++ ".clientSecret"),
          Subdomain := viper ("providers." ++ p ++ ".subdomain"),
          Type_ := "",
          Username := viper ("providers." ++ p ++ ".username") })) ∧
    ((( viper ("apps." ++ app ++ ".appId") = "" ∨
        viper ("apps." ++ app ++ ".principalArn") = "" ∨
        viper ("apps." ++ app ++ ".roleArn") = "") ∧
       ∃ e, GetApp viper app = Result.err e) ∨
     (¬ (viper ("apps." ++ app ++ ".appId") = "" ∨
        viper ("apps." ++ app ++ ".principalArn") = "" ∨
        viper ("apps." ++ app ++ ".roleArn") = "") ∧
       GetApp viper app = Result.ok
        { ID := viper ("apps." ++ app ++ ".appId"),
          PrincipalARN := viper ("apps." ++ app ++ ".principalArn"),
          Provider := viper ("apps." ++ app ++ ".provider"),
          RoleARN := viper ("apps." ++ app ++ ".roleArn") })) := by
  constructor
  · unfold GetProvider
    by_cases h1 : viper ("providers." ++ p ++ ".clientSecret") = ""
    · exact Or.inl ⟨Or.inl h1, _, by rw [if_pos h1]⟩
    by_cases h2 : viper ("providers." ++ p ++ ".clientID") = ""
    · exact Or.inl ⟨Or.inr (Or.inl h2), _, by rw [if_neg h1, if_pos h2]⟩
    by_cases h3 : viper ("providers." ++ p ++ ".subdomain") = ""
    · exact Or.inl ⟨Or.inr (Or.inr h3), _, by rw [if_neg h1, if_neg h2, if_pos h3]⟩
    · exact Or.inr ⟨by simp [h1, h2, h3], by simp [h1, h2, h3]⟩
  · unfold GetApp
    by_cases h1 : viper ("apps." ++ app ++ ".appId") = ""
    · exact Or.inl ⟨Or.inl h1, _, by rw [if_pos h1]⟩
    by_cases h2 : viper ("apps." ++ app ++ ".principalArn") = ""
    · exact Or.inl ⟨Or.inr (Or.inl h2), _, by rw [if_neg h1, if_pos h2]⟩
    by_cases h3 : viper ("apps." ++ app ++ ".roleArn") = ""
    · exact Or.inl ⟨Or.inr (Or.inr h3), _, by rw [if_neg h1, if_neg h2, if_pos h3]⟩
    · exact Or.inr ⟨by simp [h1, h2, h3], by simp [h1, h2, h3]⟩

/-! ## Each step feeds the next (C9) -/

/-- C9: in every run of `Get` each step feeds the next.  (1) The token passed to
`GenerateSamlAssertion` is the one `GenerateTokens` returned in this run.
(2) `VerifyFactor` is called with that same token, with the state token of
`Data[0]` of the assertion response of this run, with the configured `appId` and
with the OTP as read from the operator.  (3) `AssumeRoleWithSAML` is called with
the payload a successful `VerifyFactor` of this run returned, and with the
configured `principalArn` and `roleArn`.  (4) So credentials are returned only
in a run with a successful `VerifyFactor` whose payload went into a successful
role assumption. -/
theorem Get_data_flow (w : World) (app : String) :
    (∀ url tok p res,
      Effect.GenerateSamlAssertion url tok p res ∈ (Get w app).trace →
      Effect.GenerateTokens w.GenerateTokensUrl (w.viper "providers.onelogin.clientId")
        (w.viper "providers.onelogin.clientSecret") (Result.ok tok) ∈ (Get w app).trace) ∧
    (∀ url tok p res,
      Effect.VerifyFactor url tok p res ∈ (Get w app).trace →
      Effect.GenerateTokens w.GenerateTokensUrl (w.viper "providers.onelogin.clientId")
        (w.viper "providers.onelogin.clientSecret") (Result.ok tok) ∈ (Get w app).trace ∧
      (∃ pSaml rSaml data0,
        Effect.GenerateSamlAssertion w.GenerateSamlAssertionUrl tok pSaml (Result.ok rSaml)
          ∈ (Get w app).trace ∧
        rSaml.Data.head? = some data0 ∧ p.StateToken = data0.StateToken) ∧
      p.AppId = w.viper ("apps." ++ app ++ ".appId") ∧
      p.OtpToken = w.ScanlnOtp ∧ Effect.scanlnOtp p.OtpToken ∈ (Get w app).trace) ∧
    (∀ inp res,
      Effect.AssumeRoleWithSAML inp res ∈ (Get w app).trace →
      ∃ tok p rMfa,
        Effect.VerifyFactor w.VerifyFactorUrl tok p (Result.ok rMfa) ∈ (Get w app).trace ∧
        inp = { PrincipalArn := w.viper ("apps." ++ app ++ ".principalArn"),
                RoleArn := w.viper ("apps." ++ app ++ ".roleArn"),
                SAMLAssertion := rMfa.Data }) ∧
    (∀ c err,
      (Get w app).outcome = Outcome.returned (some c) err →
      ∃ tok p rMfa resp,
        Effect.VerifyFactor w.VerifyFactorUrl tok p (Result.ok rMfa) ∈ (Get w app).trace ∧
        Effect.AssumeRoleWithSAML
          { PrincipalArn := w.viper ("apps." ++ app ++ ".principalArn"),
            RoleArn := w.viper ("apps." ++ app ++ ".roleArn"),
            SAMLAssertion := rMfa.Data } (Result.ok resp) ∈ (Get w app).trace) := by
  have hrun := Get_run w app
  generalize Get w app = run at hrun ⊢
  refine ⟨?_, ?_, ?_, ?_⟩
  · intro url tok p res hmem
    obtain ⟨pass, tail, rfl, -, -, -⟩ := hrun.of_assertion_request hmem
    simp
  · intro url tok p res hmem
    obtain ⟨pass, rSaml, data0, rest, device, tail, rfl, hData, -, -, rfl, -⟩ :=
      hrun.of_verify hmem
    refine ⟨by simp, ⟨samlParams w app pass, rSaml, data0, by simp, by rw [hData]; rfl, rfl⟩,
      rfl, rfl, by simp [mfaParams]⟩
  · intro inp res hmem
    rcases hrun.mem_cases hmem with
      h | ⟨token, pass, rSaml, data0, rest, tail, rfl, hData, hTail, h⟩
    · rcases h with h | h | h | h <;> exact Stage.noConfusion h
    cases hTail with
    | noDevice hDev =>
      simp only [runMenu_trace, Run.trace_done, List.append_nil] at h
      exact Stage.noConfusion (stage_of_mem_menuEffects h)
    | verifyError device e hDev hMfa =>
      simp only [runMenu_trace, runVerify_trace, Run.trace_done, List.mem_append, List.mem_cons,
        List.not_mem_nil, or_false] at h
      rcases h with h | h | h | h
      · exact Stage.noConfusion (stage_of_mem_menuEffects h)
      · cases h
      · cases h
      · cases h
    | verified device rMfa tail2 hDev hMfa hTail2 =>
      refine ⟨token, mfaParams w app data0.StateToken device, rMfa, by simp, ?_⟩
      simp only [runMenu_trace, runVerify_trace, List.mem_append, List.mem_cons] at h
      rcases h with h | h | h | h | h
      · exact Stage.noConfusion (stage_of_mem_menuEffects h)
      · cases h
      · cases h
      · cases h
      · cases hTail2 <;> simp at h <;> exact h.1
  · intro c err hout
    cases hrun with
    | challenge token pass rSaml data0 rest tail hTok hPw hSaml hData hTail =>
      cases hTail with
      | verified device rMfa tail2 hDev hMfa hTail2 =>
        cases hTail2 with
        | success resp keyId secretKey sessionToken expiration hSess hRole hCreds =>
          exact ⟨token, mfaParams w app data0.StateToken device, rMfa, resp, by simp,
            by simp [assumeRoleInput]⟩
        | _ => simp at hout
      | _ => simp at hout
    | _ => simp at hout

/-- C9, at a concrete input (scenario C of the spec): credentials are returned,
and the run holds the successful `VerifyFactor` and the role assumption fed with
its payload. -/
theorem Get_data_flow_witness :
    (Get worldTwoDevices "dev").outcome =
      Outcome.returned (some ⟨"AK", "SK", "ST", ⟨1700000000⟩⟩) none ∧
    ∃ tok p rMfa resp,
      Effect.VerifyFactor "https://idp.example/verify_factor" tok p (Result.ok rMfa)
        ∈ (Get worldTwoDevices "dev").trace ∧
      Effect.AssumeRoleWithSAML
        { PrincipalArn := "arn:p", RoleArn := "arn:r", SAMLAssertion := rMfa.Data }
        (Result.ok resp) ∈ (Get worldTwoDevices "dev").trace :=
  ⟨by decide,
   (Get_data_flow worldTwoDevices "dev").2.2.2 ⟨"AK", "SK", "ST", ⟨1700000000⟩⟩ none
    (by decide)⟩

/-! ## The order of the effects (C10) -/

/-- C10: the effects of every run of `Get`, as statements, are a prefix of the
fixed sequence `script`: the statements of token acquisition, username prompt
(only when no username is configured), password prompt, assertion request,
device menu and selection (only when the assertion response offers more than
one device), OTP prompt, factor verification, role assumption, in this order.
No statement occurs twice in that sequence and no stage occurs twice in
`stageSequence`.  In particular: every effect outside token acquisition comes
after the `GenerateTokens` call; every effect of the device menu comes after the
`GenerateSamlAssertion` call; the `VerifyFactor` call comes after the OTP prompt;
and nothing follows the `AssumeRoleWithSAML` call.  The log line of line 51
counts with token acquisition, that of line 70 with the assertion request and
the session of line 132 with the role assumption. -/
theorem Get_effects_in_order (w : World) (app : String) :
    (Get w app).trace.map Effect.step <+:
      script (decide (w.viper "providers.onelogin.username" ≠ ""))
        (offeredDevices (Get w app).trace).length ∧
    (script (decide (w.viper "providers.onelogin.username" ≠ ""))
        (offeredDevices (Get w app).trace).length).Nodup ∧
    (stageSequence (decide (w.viper "providers.onelogin.username" ≠ ""))
        (offeredDevices (Get w app).trace).length).Nodup ∧
    (∀ pre ev post, (Get w app).trace = pre ++ ev :: post →
      ev.stage ≠ Stage.tokenAcquisition → ∃ a ∈ pre, a.step = Step.GenerateTokens) ∧
    (∀ pre ev post, (Get w app).trace = pre ++ ev :: post →
      ev.stage = Stage.deviceMenu → ∃ a ∈ pre, a.step = Step.GenerateSamlAssertion) ∧
    (∀ pre ev post, (Get w app).trace = pre ++ ev :: post →
      ev.step = Step.VerifyFactor → ∃ a ∈ pre, a.step = Step.promptOtp) ∧
    (∀ pre ev post, (Get w app).trace = pre ++ ev :: post →
      ev.step = Step.AssumeRoleWithSAML → post = []) := by
  refine ⟨Get_steps_initial w app, script_nodup _ _, stageSequence_nodup _ _, ?_⟩
  have hp := Get_steps_initial w app
  generalize (Get w app).trace = T at hp ⊢
  generalize decide (w.viper "providers.onelogin.username" ≠ "") = u at hp
  generalize (offeredDevices T).length = n at hp
  refine ⟨?_, ?_, ?_, ?_⟩
  · intro pre ev post hT hst
    apply exists_mem_of_mem_map_step
    refine mem_of_two_initial (A := [Step.logGeneratingTokens]) hp ?_ (map_step_split hT) ?_
    · rw [script_eq]
      exact List.prefix_append _ _
    · intro hmem
      have hall : ∀ x ∈ [Step.logGeneratingTokens] ++ [Step.GenerateTokens],
          x.stage = Stage.tokenAcquisition := by decide
      exact hst (hall _ hmem)
  · intro pre ev post hT hst
    apply exists_mem_of_mem_map_step
    refine mem_of_two_initial
      (A := [Step.logGeneratingTokens, Step.GenerateTokens] ++
        ((if u then [] else [Step.promptUsername, Step.scanlnUser]) ++
        [Step.promptPassword, Step.GetPasswd, Step.logGeneratingSaml]))
      hp ?_ (map_step_split hT) ?_
    · rw [script_eq]
      refine ⟨(if n > 1 then stageSteps n Stage.deviceMenu else []) ++
        [Step.promptOtp, Step.scanlnOtp, Step.VerifyFactor, Step.NewSession,
          Step.AssumeRoleWithSAML], ?_⟩
      simp
    · intro hmem
      have hall : ∀ x ∈ [Step.logGeneratingTokens, Step.GenerateTokens] ++
          ((if u then [] else [Step.promptUsername, Step.scanlnUser]) ++
          [Step.promptPassword, Step.GetPasswd, Step.logGeneratingSaml]) ++
          [Step.GenerateSamlAssertion], x.stage ≠ Stage.deviceMenu := by
        cases u <;> decide
      exact hall _ hmem hst
  · intro pre ev post hT hst
    apply exists_mem_of_mem_map_step
    refine mem_of_two_initial
      (A := [Step.logGeneratingTokens, Step.GenerateTokens] ++
        ((if u then [] else [Step.promptUsername, Step.scanlnUser]) ++
        ([Step.promptPassword, Step.GetPasswd, Step.logGeneratingSaml,
          Step.GenerateSamlAssertion] ++
        (if n > 1 then stageSteps n Stage.deviceMenu else []))))
      hp ?_ (map_step_split hT) ?_
    · rw [script_eq]
      refine ⟨[Step.scanlnOtp, Step.VerifyFactor, Step.NewSession,
          Step.AssumeRoleWithSAML], ?_⟩
      simp
    · rw [hst]
      cases u <;> by_cases h : n > 1 <;> simp [h, stageSteps]
  · intro pre ev post hT hst
    rw [script_eq] at hp
    refine (List.map_eq_nil_iff (f := Effect.step)).mp ?_
    refine nil_of_prefix_of_last
      (S := [Step.logGeneratingTokens, Step.GenerateTokens] ++
        ((if u then [] else [Step.promptUsername, Step.scanlnUser]) ++
        ([Step.promptPassword, Step.GetPasswd, Step.logGeneratingSaml,
          Step.GenerateSamlAssertion] ++
        ((if n > 1 then stageSteps n Stage.deviceMenu else []) ++
        [Step.promptOtp, Step.scanlnOtp, Step.VerifyFactor, Step.NewSession]))))
      hp ?_ (hst ▸ map_step_split hT) ?_
    · simp
    · cases u <;> by_cases h : n > 1 <;> simp [h, stageSteps]

/-- C10, at a concrete input (scenario C of the spec): with no username
configured and two devices, the run performs the whole sequence. -/
theorem Get_effects_in_order_witness :
    (Get worldTwoDevices "dev").trace.map Effect.step = script false 2 ∧
    (Get worldTwoDevices "dev").trace.map Effect.step <+:
      script (decide (worldTwoDevices.viper "providers.onelogin.username" ≠ ""))
        (offeredDevices (Get worldTwoDevices "dev").trace).length :=
  ⟨by decide, (Get_effects_in_order worldTwoDevices "dev").1⟩

end Clisso
